import Mathlib

/-!
# Card deck registry (`deck/deck.go`) and its HTTP handlers (`api/api.go`)

A shallow embedding of the deck package: cards, decks, the registry of
generated decks, card-code validation, deck construction, shuffling, and the
`OpenDeck` / `DrawCards` operations; and of the three handlers of the api
package that call them.

Modelling conventions

* A Go `string` is its sequence of bytes (`GoString`); `len`, slicing and map
  lookups are byte-wise, as in Go.
* A Go `error` is its message; `none` is the `nil` error.  Functions that
  return `(value, error)` return the pair, so the value handed back next to
  an error is part of the model.
* The package-level map `generatedDecks` is threaded through the operations
  as an explicit finite map (`Registry`).
* Library calls whose results the package does not control are parameters:
  `uuid.Parse` (`Parse`), the value produced by `uuid.New()` (`newId`) and
  the stream of `rand.Intn` outcomes (`rnd`).
-/

namespace CardDeck

/-! ## Strings -/

/-- A Go string: an immutable sequence of bytes. -/
abbrev GoString := List UInt8

/-- Bytes of an ASCII literal (used only for string constants of the source). -/
def ascii (s : String) : GoString := s.toList.map (fun c => UInt8.ofNat c.toNat)

/-- UTF-8 encodings of the code points for which `unicode.IsSpace` holds:
`\t \n \v \f \r`, space, U+0085, U+00A0, U+1680, U+2000..U+200A, U+2028,
U+2029, U+202F, U+205F, U+3000. -/
def spaceEncodings : List GoString :=
  [[0x09], [0x0A], [0x0B], [0x0C], [0x0D], [0x20],
   [0xC2, 0x85], [0xC2, 0xA0], [0xE1, 0x9A, 0x80],
   [0xE2, 0x80, 0x80], [0xE2, 0x80, 0x81], [0xE2, 0x80, 0x82], [0xE2, 0x80, 0x83],
   [0xE2, 0x80, 0x84], [0xE2, 0x80, 0x85], [0xE2, 0x80, 0x86], [0xE2, 0x80, 0x87],
   [0xE2, 0x80, 0x88], [0xE2, 0x80, 0x89], [0xE2, 0x80, 0x8A],
   [0xE2, 0x80, 0xA8], [0xE2, 0x80, 0xA9], [0xE2, 0x80, 0xAF],
   [0xE2, 0x81, 0x9F], [0xE3, 0x80, 0x80]]

/-- Repeatedly removes a leading occurrence of one of `encs` from `s`
(at most `fuel` times). -/
def stripAux (encs : List GoString) : Nat → GoString → GoString
  | 0, s => s
  | fuel + 1, s =>
    match encs.find? (fun e => e.isPrefixOf s) with
    | some e => stripAux encs fuel (s.drop e.length)
    | none => s

/-- Removes leading white space (`strings.TrimLeftFunc(s, unicode.IsSpace)`). -/
def trimLeft (s : GoString) : GoString :=
  stripAux spaceEncodings s.length s

/-- Removes trailing white space (`strings.TrimRightFunc(s, unicode.IsSpace)`). -/
def trimRight (s : GoString) : GoString :=
  (stripAux (spaceEncodings.map List.reverse) s.length s.reverse).reverse

/-- Library function `strings.TrimSpace`: the string without leading and
trailing white space. -/
def TrimSpace (s : GoString) : GoString :=
  trimRight (trimLeft s)

/-- Scan used by `Split`: `cur` holds the bytes of the piece being read, in
reverse. -/
def splitAux (sep : UInt8) : GoString → GoString → List GoString
  | cur, [] => [cur.reverse]
  | cur, b :: rest =>
    if b = sep then cur.reverse :: splitAux sep [] rest
    else splitAux sep (b :: cur) rest

/-- Library function `strings.Split(s, sep)` for a one-byte separator: the
pieces of `s` between separators (one more piece than separators). -/
def Split (s : GoString) (sep : UInt8) : List GoString :=
  splitAux sep [] s

/-- The byte `,`. -/
def comma : UInt8 := 0x2C

/-- Decimal rendering of an integer, as `%d` prints it. -/
def formatInt (n : Int) : GoString :=
  if n < 0 then 0x2D :: (Nat.toDigits 10 n.natAbs).map (fun c => UInt8.ofNat c.toNat)
  else (Nat.toDigits 10 n.toNat).map (fun c => UInt8.ofNat c.toNat)

/-- Lookup `m[k]` in a Go `map[string]string` literal with the comma-ok
result: `none` when the key is absent. -/
def mapLookup (m : List (GoString × GoString)) (k : GoString) : Option GoString :=
  m.lookup k

/-- Plain index expression `m[k]`: the zero value `""` when the key is absent. -/
def mapIndex (m : List (GoString × GoString)) (k : GoString) : GoString :=
  (mapLookup m k).getD []

/-! ## Data model -/

/-- A `uuid.UUID` (`[16]byte`), as the 128-bit number it holds. -/
abbrev UUID := Fin (2 ^ 128)

/-- Type `Card`. -/
structure Card where
  Value : GoString
  Suit : GoString
  Code : GoString
deriving DecidableEq, Repr, Inhabited

/-- Type `Deck`. -/
structure Deck where
  DeckId : UUID
  Cards : List Card
  Shuffled : Bool
deriving DecidableEq, Repr

/-- The zero value of `Deck` (`var d Deck`). -/
def Deck.zero : Deck := { DeckId := 0, Cards := [], Shuffled := false }

/-- The map `generatedDecks`. -/
abbrev Registry := Finmap (fun _ : UUID => Deck)

/-- Variable `cardSuits`. -/
def cardSuits : List GoString :=
  [ascii "SPADES", ascii "DIMONDS", ascii "CLUBS", ascii "HEARTS"]

/-- Variable `cardValues`. -/
def cardValues : List GoString :=
  [ascii "A", ascii "2", ascii "3", ascii "4", ascii "5", ascii "6", ascii "7",
   ascii "8", ascii "9", ascii "10", ascii "J", ascii "Q", ascii "K"]

/-- Variable `suitNames`. -/
def suitNames : List (GoString × GoString) :=
  [(ascii "S", ascii "SPADES"), (ascii "D", ascii "DIMONDS"),
   (ascii "C", ascii "CLUBS"), (ascii "H", ascii "HEARTS")]

/-- Variable `valueNames`. -/
def valueNames : List (GoString × GoString) :=
  [(ascii "A", ascii "ACE"), (ascii "2", ascii "2"), (ascii "3", ascii "3"),
   (ascii "4", ascii "4"), (ascii "5", ascii "5"), (ascii "6", ascii "6"),
   (ascii "7", ascii "7"), (ascii "8", ascii "8"), (ascii "9", ascii "9"),
   (ascii "10", ascii "10"), (ascii "J", ascii "JACK"), (ascii "Q", ascii "QUEEN"),
   (ascii "K", ascii "KING")]

/-! ## Card codes -/

/-- The checks of `validateCardCode` on the already trimmed code. -/
def validateTrimmed (code : GoString) : Option GoString :=
  if code.length < 2 then
    some (ascii "code " ++ code ++ ascii " is invalid")
  else
    let suit := code.drop (code.length - 1)
    if (mapLookup suitNames suit).isNone then
      some (ascii "code " ++ code ++ ascii " is invalid, should have proper suit name")
    else
      let value := code.take (code.length - 1)
      if (mapLookup valueNames value).isNone then
        some (ascii "code " ++ code ++ ascii " is invalid, should have proper card value")
      else
        none

/-- Function `validateCardCode`: `none` when the code is valid, the error
otherwise. -/
def validateCardCode (code : GoString) : Option GoString :=
  validateTrimmed (TrimSpace code)

/-- The card built by `newDeckFromCodes` from a trimmed, validated code. -/
def cardOfCode (code : GoString) : Card :=
  { Value := mapIndex valueNames (code.take (code.length - 1)),
    Suit := mapIndex suitNames (code.drop (code.length - 1)),
    Code := code }

/-- Loop of `newDeckFromCodes` over the remaining pieces, `deckCards` being
the cards appended so far. -/
def fromCodesLoop : List GoString → List Card → Deck × Option GoString
  | [], deckCards => ({ Deck.zero with Cards := deckCards }, none)
  | code :: rest, deckCards =>
    let code := TrimSpace code
    match validateCardCode code with
    | some err => (Deck.zero, some err)
    | none => fromCodesLoop rest (deckCards ++ [cardOfCode code])

/-- Function `newDeckFromCodes`. -/
def newDeckFromCodes (codes : GoString) : Deck × Option GoString :=
  fromCodesLoop (Split codes comma) []

/-- Function `newSequentialDeck`. -/
def newSequentialDeck : Deck :=
  { Deck.zero with
    Cards := cardSuits.flatMap (fun suit =>
      cardValues.map (fun value =>
        { Value := mapIndex valueNames value, Suit := suit,
          Code := value.take 1 ++ suit.take 1 })) }

/-! ## Shuffling -/

/-- The assignment `cards[i], cards[pos] = cards[pos], cards[i]`. -/
def swapAt (cards : List Card) (i pos : Nat) : List Card :=
  (cards.set i (cards.getD pos default)).set pos (cards.getD i default)

/-- Method `Deck.shuffle` on the card slice: for every index `i` in order,
swap position `i` with `rand.Intn(len)`.  `rnd i` is the outcome of the call
made in iteration `i`; it is reduced modulo the length, which is the identity
on the outcomes `rand.Intn` can produce. -/
def shuffle (rnd : Nat → Nat) (cards : List Card) : List Card :=
  (List.range cards.length).foldl
    (fun cs i => swapAt cs i (rnd i % cards.length)) cards

/-! ## Operations on the registry -/

/-- Function `parseUUID`; `Parse` is `uuid.Parse` (`none` when it reports an
error). -/
def parseUUID (Parse : GoString → Option UUID) (uuidStr : GoString) :
    UUID × Option GoString :=
  match Parse uuidStr with
  | none =>
    (0, some (ascii "input UUID '" ++ uuidStr ++ ascii "' is not a valid UUID4 value"))
  | some uuid => (uuid, none)

/-- Function `checkUUIDExists`. -/
def checkUUIDExists (reg : Registry) (uuid : UUID) : Bool :=
  (reg.lookup uuid).isSome

/-- Function `OpenDeck`: the returned deck and error, and the registry after
the call. -/
def OpenDeck (Parse : GoString → Option UUID) (reg : Registry) (deckId : GoString) :
    (Deck × Option GoString) × Registry :=
  match parseUUID Parse deckId with
  | (_, some err) => ((Deck.zero, some err), reg)
  | (uuid, none) =>
    if !checkUUIDExists reg uuid then
      ((Deck.zero, some (ascii "deck not found for the input uuid " ++ deckId)), reg)
    else
      (((reg.lookup uuid).getD Deck.zero, none), reg)

/-- Function `DrawCards`: the returned cards and error, and the registry after
the call. -/
def DrawCards (Parse : GoString → Option UUID) (reg : Registry) (deckId : GoString)
    (count : Int) : (List Card × Option GoString) × Registry :=
  if count ≤ 0 then
    (([], some (ascii "count must be more than zero")), reg)
  else
    match OpenDeck Parse reg deckId with
    | ((_, some err), reg) => (([], some err), reg)
    | ((deck, none), reg) =>
      let cards := deck.Cards
      if cards.length = 0 then
        ((cards, some (ascii "cannot draw any cards, deck is empty")), reg)
      else if count > cards.length then
        ((cards, some (ascii "cannot draw " ++ formatInt count ++
          ascii " cards, deck has only " ++ formatInt cards.length)), reg)
      else
        let hand := deck.Cards.take count.toNat
        let cards := deck.Cards.drop count.toNat
        let deck := { deck with Cards := cards }
        ((hand, none), reg.insert deck.DeckId deck)

/-- Function `CreateNewDeck`: the returned deck and error, and the registry
after the call.  `newId` is the value of `uuid.New()` and `rnd` the outcomes
of `rand.Intn` in the shuffle. -/
def CreateNewDeck (newId : UUID) (rnd : Nat → Nat) (reg : Registry) (shuffle : Bool)
    (codes : GoString) : (Deck × Option GoString) × Registry :=
  match (if codes.length = 0 then (newSequentialDeck, none) else newDeckFromCodes codes) with
  | (d, some e) => ((d, some e), reg)
  | (d, none) =>
    let d := if shuffle then { d with Cards := CardDeck.shuffle rnd d.Cards } else d
    let d := { d with DeckId := newId, Shuffled := shuffle }
    ((d, none), reg.insert d.DeckId d)


/-! ## Registry invariant and sample data -/

/-- The registry invariant of the package: every deck is stored under its own
`DeckId`. -/
def Keyed (reg : Registry) : Prop :=
  ∀ (id : UUID) (deck : Deck), reg.lookup id = some deck → deck.DeckId = id

/-- Sample outcome of `uuid.Parse`: the strings `d7` and `d8` parse. -/
def sampleParse : GoString → Option UUID :=
  fun s => if s = ascii "d7" then some 7 else if s = ascii "d8" then some 8 else none

/-- Sample deck of two cards. -/
def sampleDeck : Deck :=
  { DeckId := 7, Cards := [cardOfCode (ascii "AS"), cardOfCode (ascii "KD")],
    Shuffled := false }

/-- Sample registry holding `sampleDeck`. -/
def sampleRegistry : Registry := (∅ : Registry).insert 7 sampleDeck

/-! ## Sequences of calls -/

/-- A call of one of the exported operations, together with the outcomes of
the library calls made during it (`uuid.New()` and `rand.Intn` for
`CreateNewDeck`). -/
inductive Call where
  | createNewDeck (newId : UUID) (rnd : Nat → Nat) (shuffle : Bool) (codes : GoString)
  | openDeck (deckId : GoString)
  | drawCards (deckId : GoString) (count : Int)

/-- The registry after one call. -/
def step (Parse : GoString → Option UUID) (reg : Registry) : Call → Registry
  | .createNewDeck newId rnd shuffle codes => (CreateNewDeck newId rnd reg shuffle codes).2
  | .openDeck deckId => (OpenDeck Parse reg deckId).2
  | .drawCards deckId count => (DrawCards Parse reg deckId count).2

/-- The registry after a sequence of calls, made in order. -/
def run (Parse : GoString → Option UUID) (reg : Registry) (calls : List Call) : Registry :=
  calls.foldl (step Parse) reg

/-- Whether the call is an `OpenDeck` or a `DrawCards` call. -/
def Call.isQuery : Call → Bool
  | .createNewDeck _ _ _ _ => false
  | .openDeck _ => true
  | .drawCards _ _ => true

/-- Whether every `CreateNewDeck` call of the sequence that stores a deck is
given, by `uuid.New()`, an id that is not in the registry at that moment. -/
def Fresh (Parse : GoString → Option UUID) : Registry → List Call → Bool
  | _, [] => true
  | reg, call :: rest =>
    (match call with
      | .createNewDeck newId rnd shuffle codes =>
        (CreateNewDeck newId rnd reg shuffle codes).1.2.isSome || (reg.lookup newId).isNone
      | _ => true) && Fresh Parse (step Parse reg call) rest

/-- Sample calls: a deck of two cards is created under the id 7. -/
def sampleCalls1 : List Call :=
  [Call.createNewDeck 7 (fun i => i) false (ascii "AS,KD")]

/-- Sample later calls: a draw from that deck, the creation of a second deck,
a draw that fails and an `OpenDeck`. -/
def sampleCalls2 : List Call :=
  [Call.drawCards (ascii "d7") 1,
   Call.createNewDeck 8 (fun i => i + 1) true (ascii "10C,4H"),
   Call.drawCards (ascii "d7") 5,
   Call.openDeck (ascii "d7")]

/-! ## Counting the outcomes of the shuffle -/

/-- All sequences of `k` outcomes of `rand.Intn(n)`. -/
def pickSequences (n : Nat) : Nat → List (List Nat)
  | 0 => [[]]
  | k + 1 => (List.range n).flatMap (fun p => (pickSequences n k).map (fun ps => p :: ps))

/-- The stream of outcomes that starts with the given sequence. -/
def picksOf (ps : List Nat) : Nat → Nat :=
  fun i => ps.getD i 0

/-- Number of sequences of `len(cards)` outcomes of `rand.Intn(len(cards))`
for which the shuffle of `cards` is `target`. -/
def shuffleCount (cards target : List Card) : Nat :=
  ((pickSequences cards.length cards.length).filter
    (fun ps => decide (shuffle (picksOf ps) cards = target))).length

/-- Sample deck of three distinct cards. -/
def threeCards : List Card :=
  [cardOfCode (ascii "AS"), cardOfCode (ascii "KD"), cardOfCode (ascii "AC")]

/-! ## The HTTP handlers (`api/api.go`)

A request is given by its query parameters, `none` for a parameter that is
absent; a response is the status code and the value passed to
`c.IndentedJSON`. -/

/-- Library function `strconv.ParseBool`: `none` when it reports an error. -/
def ParseBool (s : GoString) : Option Bool :=
  if s ∈ [ascii "1", ascii "t", ascii "T", ascii "TRUE", ascii "true", ascii "True"] then
    some true
  else if s ∈ [ascii "0", ascii "f", ascii "F", ascii "FALSE", ascii "false", ascii "False"]
  then some false
  else none

/-- Value of a non-empty string of decimal digits (`strconv.ParseUint` in base
10, without the range check); `none` for the empty string and for a string
with another byte. -/
def parseDigits (s : GoString) : Option Nat :=
  if s = [] then none
  else
    s.foldl
      (fun acc b =>
        match acc with
        | none => none
        | some n =>
          if 48 ≤ b.toNat ∧ b.toNat ≤ 57 then some (10 * n + (b.toNat - 48)) else none)
      (some 0)

/-- Library call `strconv.ParseInt(s, 10, 32)`: an optional sign `+` or `-`
followed by decimal digits, with a value from `-2^31` to `2^31 - 1`; `none`
when it reports a syntax or range error. -/
def ParseInt (s : GoString) : Option Int :=
  match s with
  | [] => none
  | b :: rest =>
    match parseDigits (if b = 0x2B ∨ b = 0x2D then rest else b :: rest) with
    | none => none
    | some un =>
      if b = 0x2D then
        if un > 2 ^ 31 then none else some (-(un : Int))
      else
        if un ≥ 2 ^ 31 then none else some (un : Int)

/-- Type `errorMessage`. -/
structure Api.errorMessage where
  ErrorCode : Int
  Message : GoString
deriving DecidableEq, Repr

/-- Type `deckMetadata`. -/
structure Api.deckMetadata where
  Id : GoString
  Shuffled : Bool
  Remaining : Int
deriving DecidableEq, Repr

/-- What a handler writes with `c.IndentedJSON`: the status code and one of
`errorMessage`, `newDeckResponse`, `openDeckResponse`, `drawHandResponse`. -/
inductive Api.Response where
  | error (status : Nat) (em : Api.errorMessage)
  | newDeck (status : Nat) (metadata : Api.deckMetadata)
  | openDeck (status : Nat) (metadata : Api.deckMetadata) (cards : List Card)
  | drawHand (status : Nat) (cards : List Card)
deriving DecidableEq, Repr

/-- The status code of a response. -/
def Api.Response.status : Api.Response → Nat
  | .error status _ => status
  | .newDeck status _ => status
  | .openDeck status _ _ => status
  | .drawHand status _ => status

/-- Constant `http.StatusOK`. -/
def Api.StatusOK : Nat := 200

/-- Constant `http.StatusBadRequest`. -/
def Api.StatusBadRequest : Nat := 400

/-- Handler `newDeck`.  `uuidString` is the method `UUID.String`; the query
parameters are `shuffle` and `cards`. -/
def Api.newDeck (uuidString : UUID → GoString) (newId : UUID) (rnd : Nat → Nat)
    (reg : Registry) (shuffleParam cardsParam : Option GoString) :
    Api.Response × Registry :=
  let shuffleQueryParam := shuffleParam.getD (ascii "false")
  match ParseBool shuffleQueryParam with
  | none =>
    (.error Api.StatusBadRequest
      { Message := ascii "Invalid query param value for 'shuffle': " ++ shuffleQueryParam,
        ErrorCode := 1 }, reg)
  | some shuffle =>
    let cards := cardsParam.getD []
    match CreateNewDeck newId rnd reg shuffle cards with
    | ((_, some err), reg) =>
      (.error Api.StatusBadRequest
        { Message := ascii "error in deck creation: " ++ err, ErrorCode := 2 }, reg)
    | ((deck, none), reg) =>
      (.newDeck Api.StatusOK
        { Id := uuidString deck.DeckId, Shuffled := deck.Shuffled,
          Remaining := deck.Cards.length }, reg)

/-- Handler `openDeck`; the query parameter is `deck_id`. -/
def Api.openDeck (uuidString : UUID → GoString) (Parse : GoString → Option UUID)
    (reg : Registry) (deckIdParam : Option GoString) : Api.Response × Registry :=
  let deckId := deckIdParam.getD []
  if deckId.length = 0 then
    (.error Api.StatusBadRequest
      { Message := ascii "'deck_id' query param not provided", ErrorCode := 3 }, reg)
  else
    match OpenDeck Parse reg deckId with
    | ((_, some err), reg) =>
      (.error Api.StatusBadRequest
        { Message := ascii "Error in opening deck: " ++ err, ErrorCode := 4 }, reg)
    | ((deck, none), reg) =>
      (.openDeck Api.StatusOK
        { Id := uuidString deck.DeckId, Shuffled := deck.Shuffled,
          Remaining := deck.Cards.length } deck.Cards, reg)

/-- Handler `drawCards`; the query parameters are `deck_id` and `count`. -/
def Api.drawCards (Parse : GoString → Option UUID) (reg : Registry)
    (deckIdParam countParam : Option GoString) : Api.Response × Registry :=
  let deckId := deckIdParam.getD []
  if deckId.length = 0 then
    (.error Api.StatusBadRequest
      { Message := ascii "'deck_id' query param not provided", ErrorCode := 3 }, reg)
  else
    let count := countParam.getD []
    if count.length = 0 then
      (.error Api.StatusBadRequest
        { Message := ascii "'count' query param not provided", ErrorCode := 5 }, reg)
    else
      match ParseInt count with
      | none =>
        (.error Api.StatusBadRequest
          { Message := ascii "count '" ++ count ++ ascii "' is not an integer",
            ErrorCode := 6 }, reg)
      | some cardCount =>
        if cardCount ≤ 0 then
          (.error Api.StatusBadRequest
            { Message := ascii "count must be greater than zero", ErrorCode := 6 }, reg)
        else
          match DrawCards Parse reg deckId cardCount with
          | ((_, some err), reg) =>
            (.error Api.StatusBadRequest
              { Message := ascii "Error in drawing a hand from deck: " ++ err,
                ErrorCode := 7 }, reg)
          | ((hand, none), reg) => (.drawHand Api.StatusOK hand, reg)

/-- Sample rendering of ids (`UUID.String`), the inverse of `sampleParse` on 7
and 8. -/
def sampleString : UUID → GoString :=
  fun id => if id = 7 then ascii "d7" else if id = 8 then ascii "d8" else ascii "other"

/-! ## Facts about trimming -/

theorem stripAux_fixed (encs : List GoString) (fuel : Nat) (s : GoString)
    (h : encs.find? (fun e => e.isPrefixOf s) = none) : stripAux encs fuel s = s := by
  cases fuel with
  | zero => rfl
  | succ n => simp [stripAux, h]

theorem stripAux_suffix (encs : List GoString) (fuel : Nat) (s : GoString) :
    stripAux encs fuel s <:+ s := by
  induction fuel generalizing s with
  | zero => exact List.suffix_refl s
  | succ n ih =>
    unfold stripAux
    split
    · exact (ih _).trans (List.drop_suffix _ _)
    · exact List.suffix_refl s

theorem stripAux_clean (encs : List GoString) (hne : ∀ e ∈ encs, e ≠ [])
    (fuel : Nat) (s : GoString) (hlen : s.length ≤ fuel) :
    encs.find? (fun e => e.isPrefixOf (stripAux encs fuel s)) = none := by
  induction fuel generalizing s with
  | zero =>
    have hs : s = [] := List.length_eq_zero.mp (Nat.le_zero.mp hlen)
    subst hs
    simp only [stripAux]
    rw [List.find?_eq_none]
    intro e he
    have := hne e he
    cases e with
    | nil => exact absurd rfl this
    | cons a t => simp [List.isPrefixOf]
  | succ n ih =>
    unfold stripAux
    split
    · rename_i e hfind
      apply ih
      have hmem : e ∈ encs := List.mem_of_find?_eq_some hfind
      have hpos : 0 < e.length := List.length_pos.mpr (hne e hmem)
      have hpre : e.isPrefixOf s = true := by
        have := List.find?_some hfind
        simpa using this
      have hle : e.length ≤ s.length := (List.isPrefixOf_iff_prefix.mp hpre).length_le
      simp only [List.length_drop]
      omega
    · rename_i hfind
      exact hfind

theorem clean_of_initial (encs : List GoString) (t s : GoString) (hts : t <+: s)
    (h : encs.find? (fun e => e.isPrefixOf s) = none) :
    encs.find? (fun e => e.isPrefixOf t) = none := by
  rw [List.find?_eq_none] at h ⊢
  intro e he hpre
  apply h e he
  rw [List.isPrefixOf_iff_prefix] at hpre ⊢
  exact hpre.trans hts

theorem spaceEncodings_ne_nil : ∀ e ∈ spaceEncodings, e ≠ [] := by decide

theorem spaceEncodings_rev_ne_nil : ∀ e ∈ spaceEncodings.map List.reverse, e ≠ [] := by decide

theorem trimLeft_clean (s : GoString) :
    spaceEncodings.find? (fun e => e.isPrefixOf (trimLeft s)) = none :=
  stripAux_clean _ spaceEncodings_ne_nil _ _ (Nat.le_refl _)

theorem trimRight_initial (s : GoString) : trimRight s <+: s := by
  unfold trimRight
  have := stripAux_suffix (spaceEncodings.map List.reverse) s.length s.reverse
  have h := List.reverse_prefix.mpr this
  rwa [List.reverse_reverse] at h

theorem trimRight_idem (s : GoString) : trimRight (trimRight s) = trimRight s := by
  have hclean := stripAux_clean _ spaceEncodings_rev_ne_nil s.reverse.length s.reverse
    (Nat.le_refl _)
  have hrev : (trimRight s).reverse
      = stripAux (spaceEncodings.map List.reverse) s.reverse.length s.reverse := by
    simp [trimRight]
  rw [← hrev] at hclean
  have hfix := stripAux_fixed _ (trimRight s).length _ hclean
  show (stripAux _ (trimRight s).length (trimRight s).reverse).reverse = trimRight s
  rw [hfix, List.reverse_reverse]

/-- Trimming is idempotent. -/
theorem TrimSpace_idem (s : GoString) : TrimSpace (TrimSpace s) = TrimSpace s := by
  unfold TrimSpace
  have h1 : trimLeft (trimRight (trimLeft s)) = trimRight (trimLeft s) := by
    unfold trimLeft
    apply stripAux_fixed
    exact clean_of_initial _ _ _ (trimRight_initial _) (trimLeft_clean s)
  rw [h1, trimRight_idem]


theorem validateCardCode_TrimSpace (s : GoString) :
    validateCardCode (TrimSpace s) = validateCardCode s := by
  unfold validateCardCode
  rw [TrimSpace_idem]

theorem mapLookup_isSome_iff (m : List (GoString × GoString)) (k : GoString) :
    (mapLookup m k).isSome = true ↔ k ∈ m.map Prod.fst := by
  induction m with
  | nil => simp [mapLookup]
  | cons p m ih =>
    obtain ⟨a, b⟩ := p
    unfold mapLookup at ih ⊢
    by_cases h : k = a
    · subst h
      simp [List.lookup]
    · have hbeq : (k == a) = false := by simpa using h
      simp [List.lookup, hbeq, ih, h]

theorem validateTrimmed_eq_none_iff (c : GoString) :
    validateTrimmed c = none ↔
      ∃ r ∈ valueNames.map Prod.fst, ∃ s ∈ suitNames.map Prod.fst, c = r ++ s := by
  constructor
  · intro h
    unfold validateTrimmed at h
    split at h
    · exact absurd h (by simp)
    · simp only at h
      split at h
      · exact absurd h (by simp)
      · split at h
        · exact absurd h (by simp)
        · rename_i _ hs hv
          refine ⟨c.take (c.length - 1), ?_, c.drop (c.length - 1), ?_, ?_⟩
          · rw [← mapLookup_isSome_iff, Option.isSome_iff_ne_none]
            simpa using hv
          · rw [← mapLookup_isSome_iff, Option.isSome_iff_ne_none]
            simpa using hs
          · exact (List.take_append_drop _ _).symm
  · rintro ⟨r, hr, s, hs, rfl⟩
    have hall : ∀ r ∈ valueNames.map Prod.fst, ∀ s ∈ suitNames.map Prod.fst,
        validateTrimmed (r ++ s) = none := by decide
    exact hall r hr s hs


/-- C2: `validateCardCode` accepts a code exactly when the trimmed code is a
rank token `A,2,...,10,J,Q,K` followed by a suit initial `S,D,C,H`; the
accepted trimmed strings are 52 distinct strings; `AH, KC, JD, QS, 10D, 4C`
are accepted and `11D, D1, aS, 1S`, the empty string, two spaces, `4 S`, `10`
and `4h` are rejected. -/
theorem validateCardCode_accepts_iff :
    (∀ code : GoString, validateCardCode code = none ↔
      ∃ r ∈ [ascii "A", ascii "2", ascii "3", ascii "4", ascii "5", ascii "6", ascii "7",
             ascii "8", ascii "9", ascii "10", ascii "J", ascii "Q", ascii "K"],
        ∃ s ∈ [ascii "S", ascii "D", ascii "C", ascii "H"], TrimSpace code = r ++ s) ∧
    (∃ accepted : List GoString, accepted.length = 52 ∧ accepted.Nodup ∧
      (∀ a ∈ accepted, TrimSpace a = a) ∧
      ∀ code : GoString, validateCardCode code = none ↔ TrimSpace code ∈ accepted) ∧
    (∀ code ∈ [ascii "AH", ascii "KC", ascii "JD", ascii "QS", ascii "10D", ascii "4C"],
      validateCardCode code = none) ∧
    (∀ code ∈ [ascii "11D", ascii "D1", ascii "aS", ascii "1S", ascii "", ascii "  ",
               ascii "4 S", ascii "10", ascii "4h"],
      validateCardCode code ≠ none) := by
  have hkeys : valueNames.map Prod.fst =
      [ascii "A", ascii "2", ascii "3", ascii "4", ascii "5", ascii "6", ascii "7",
       ascii "8", ascii "9", ascii "10", ascii "J", ascii "Q", ascii "K"] := by decide
  have hsuits : suitNames.map Prod.fst = [ascii "S", ascii "D", ascii "C", ascii "H"] := by
    decide
  have hiff : ∀ code : GoString, validateCardCode code = none ↔
      ∃ r ∈ [ascii "A", ascii "2", ascii "3", ascii "4", ascii "5", ascii "6", ascii "7",
             ascii "8", ascii "9", ascii "10", ascii "J", ascii "Q", ascii "K"],
        ∃ s ∈ [ascii "S", ascii "D", ascii "C", ascii "H"], TrimSpace code = r ++ s := by
    intro code
    rw [← hkeys, ← hsuits]
    exact validateTrimmed_eq_none_iff (TrimSpace code)
  refine ⟨hiff, ?_, by decide, by decide⟩
  refine ⟨(valueNames.map Prod.fst).flatMap
    (fun r => (suitNames.map Prod.fst).map (fun s => r ++ s)), by decide, by decide,
    by decide, ?_⟩
  intro code
  rw [hiff, ← hkeys, ← hsuits]
  simp only [List.mem_flatMap, List.mem_map]
  constructor
  · rintro ⟨r, hr, s, hs, h⟩
    exact ⟨r, hr, s, hs, h.symm⟩
  · rintro ⟨r, hr, s, hs, h⟩
    exact ⟨r, hr, s, hs, h.symm⟩

/-- C3: `CreateNewDeck(false, "")` succeeds with a deck of exactly 52 cards,
the first with code `AS`, the last with code `KH`, and no code occurs twice. -/
theorem CreateNewDeck_full_sequential (newId : UUID) (rnd : Nat → Nat) (reg : Registry) :
    (CreateNewDeck newId rnd reg false (ascii "")).1.2 = none ∧
    (CreateNewDeck newId rnd reg false (ascii "")).1.1.Cards.length = 52 ∧
    (CreateNewDeck newId rnd reg false (ascii "")).1.1.Cards.head?.map Card.Code
      = some (ascii "AS") ∧
    (CreateNewDeck newId rnd reg false (ascii "")).1.1.Cards.getLast?.map Card.Code
      = some (ascii "KH") ∧
    ((CreateNewDeck newId rnd reg false (ascii "")).1.1.Cards.map Card.Code).Nodup := by
  have h : (CreateNewDeck newId rnd reg false (ascii "")).1 =
      ({ newSequentialDeck with DeckId := newId, Shuffled := false }, none) := rfl
  rw [h]
  refine ⟨rfl, ?_, ?_, ?_, ?_⟩
  · show newSequentialDeck.Cards.length = 52
    decide
  · show newSequentialDeck.Cards.head?.map Card.Code = some (ascii "AS")
    decide
  · show newSequentialDeck.Cards.getLast?.map Card.Code = some (ascii "KH")
    decide
  · show (newSequentialDeck.Cards.map Card.Code).Nodup
    decide

/-- C4 (evaluation at the failing input): the ten of spades of the sequential
deck, at index 9, carries the code `1S` instead of `10S`; `validateCardCode`
rejects that code, `newDeckFromCodes` fails on it, and the code `10S`
accepted by `newDeckFromCodes` yields the same value and suit under a code
that differs from the one in the sequential deck.  Every card of the
sequential deck other than the four tens has a code that is accepted and that
`newDeckFromCodes` maps back to the same card. -/
theorem newSequentialDeck_ten_code :
    newSequentialDeck.Cards.get? 9 =
      some { Value := ascii "10", Suit := ascii "SPADES", Code := ascii "1S" } ∧
    validateCardCode (ascii "1S") =
      some (ascii "code 1S is invalid, should have proper card value") ∧
    (newDeckFromCodes (ascii "1S")).2 ≠ none ∧
    newDeckFromCodes (ascii "10S") =
      ({ Deck.zero with
          Cards := [{ Value := ascii "10", Suit := ascii "SPADES", Code := ascii "10S" }] },
        none) ∧
    (∀ c ∈ newSequentialDeck.Cards, c.Value ≠ ascii "10" →
      validateCardCode c.Code = none ∧
      newDeckFromCodes c.Code = ({ Deck.zero with Cards := [c] }, none)) := by
  decide


/-! ## Facts about the registry operations -/

theorem OpenDeck_parse_error (Parse : GoString → Option UUID) (reg : Registry)
    (deckId : GoString) (h : Parse deckId = none) :
    OpenDeck Parse reg deckId =
      ((Deck.zero,
        some (ascii "input UUID '" ++ deckId ++ ascii "' is not a valid UUID4 value")), reg) := by
  simp [OpenDeck, parseUUID, h]

theorem OpenDeck_not_found (Parse : GoString → Option UUID) (reg : Registry)
    (deckId : GoString) (id : UUID) (h : Parse deckId = some id) (hreg : reg.lookup id = none) :
    OpenDeck Parse reg deckId =
      ((Deck.zero, some (ascii "deck not found for the input uuid " ++ deckId)), reg) := by
  simp [OpenDeck, parseUUID, h, checkUUIDExists, hreg]

theorem OpenDeck_found (Parse : GoString → Option UUID) (reg : Registry)
    (deckId : GoString) (id : UUID) (deck : Deck) (h : Parse deckId = some id)
    (hreg : reg.lookup id = some deck) :
    OpenDeck Parse reg deckId = ((deck, none), reg) := by
  simp [OpenDeck, parseUUID, h, checkUUIDExists, hreg]

theorem DrawCards_of_open_error (Parse : GoString → Option UUID) (reg : Registry)
    (deckId : GoString) (count : Int) (hc : 0 < count) (d : Deck) (err : GoString)
    (h : OpenDeck Parse reg deckId = ((d, some err), reg)) :
    DrawCards Parse reg deckId count = (([], some err), reg) := by
  have hc' : ¬ count ≤ 0 := not_le.mpr hc
  simp [DrawCards, hc', h]

theorem DrawCards_of_open_ok (Parse : GoString → Option UUID) (reg : Registry)
    (deckId : GoString) (count : Int) (hc : 0 < count) (deck : Deck)
    (h : OpenDeck Parse reg deckId = ((deck, none), reg)) :
    DrawCards Parse reg deckId count =
      if deck.Cards.length = 0 then
        ((deck.Cards, some (ascii "cannot draw any cards, deck is empty")), reg)
      else if count > deck.Cards.length then
        ((deck.Cards, some (ascii "cannot draw " ++ formatInt count ++
          ascii " cards, deck has only " ++ formatInt deck.Cards.length)), reg)
      else
        ((deck.Cards.take count.toNat, none),
          reg.insert deck.DeckId { deck with Cards := deck.Cards.drop count.toNat }) := by
  have hc' : ¬ count ≤ 0 := not_le.mpr hc
  simp [DrawCards, hc', h]

/-- The registry is unchanged whenever `DrawCards` reports an error. -/
theorem DrawCards_error_frame (Parse : GoString → Option UUID) (reg : Registry)
    (deckId : GoString) (count : Int)
    (h : (DrawCards Parse reg deckId count).1.2 ≠ none) :
    (DrawCards Parse reg deckId count).2 = reg := by
  by_cases hc : count ≤ 0
  · simp [DrawCards, hc]
  · have hpos : 0 < count := not_le.mp hc
    cases hp : Parse deckId with
    | none =>
      rw [DrawCards_of_open_error Parse reg deckId count hpos _ _
        (OpenDeck_parse_error Parse reg deckId hp)]
    | some id =>
      cases hl : reg.lookup id with
      | none =>
        rw [DrawCards_of_open_error Parse reg deckId count hpos _ _
          (OpenDeck_not_found Parse reg deckId id hp hl)]
      | some deck =>
        rw [DrawCards_of_open_ok Parse reg deckId count hpos deck
          (OpenDeck_found Parse reg deckId id deck hp hl)] at h ⊢
        split
        · rfl
        · split
          · rfl
          · rename_i h0 h1
            simp [h0, h1] at h

theorem toDigitsCore_digits (fuel : Nat) : ∀ (n : Nat) (ds : List Char),
    ∀ c ∈ Nat.toDigitsCore 10 fuel n ds,
      c ∈ ['0', '1', '2', '3', '4', '5', '6', '7', '8', '9'] ∨ c ∈ ds := by
  induction fuel with
  | zero => intro n ds c hc; exact Or.inr hc
  | succ f ih =>
    intro n ds c hc
    have hd : Nat.digitChar (n % 10) ∈ ['0', '1', '2', '3', '4', '5', '6', '7', '8', '9'] := by
      have hlt : n % 10 < 10 := Nat.mod_lt _ (by decide)
      generalize n % 10 = k at hlt
      interval_cases k <;> decide
    simp only [Nat.toDigitsCore] at hc
    split at hc
    · rcases List.mem_cons.mp hc with h | h
      · exact Or.inl (h ▸ hd)
      · exact Or.inr h
    · rcases ih _ _ c hc with h | h
      · exact Or.inl h
      · rcases List.mem_cons.mp h with h | h
        · exact Or.inl (h ▸ hd)
        · exact Or.inr h

theorem toDigitsCore_ne_nil (fuel : Nat) : ∀ (n : Nat) (ds : List Char),
    Nat.toDigitsCore 10 (fuel + 1) n ds ≠ [] := by
  induction fuel with
  | zero =>
    intro n ds
    simp [Nat.toDigitsCore]
  | succ f ih =>
    intro n ds
    rw [Nat.toDigitsCore]
    split
    · simp
    · exact ih _ _

/-- The rendering of a non-negative integer is a non-empty string of decimal
digits. -/
theorem formatInt_digits (n : Int) (hn : 0 ≤ n) :
    formatInt n ≠ [] ∧ ∀ b ∈ formatInt n, b ∈ ([48, 49, 50, 51, 52, 53, 54, 55, 56, 57] : List UInt8) := by
  have hneg : ¬ n < 0 := not_lt.mpr hn
  simp only [formatInt, hneg, if_false]
  constructor
  · intro h
    have := List.map_eq_nil_iff.mp h
    exact toDigitsCore_ne_nil _ _ _ this
  · intro b hb
    obtain ⟨c, hc, rfl⟩ := List.mem_map.mp hb
    have hall : ∀ c ∈ ['0', '1', '2', '3', '4', '5', '6', '7', '8', '9'],
        UInt8.ofNat c.toNat ∈ ([48, 49, 50, 51, 52, 53, 54, 55, 56, 57] : List UInt8) := by
      decide
    rcases toDigitsCore_digits _ _ _ c hc with h | h
    · exact hall c h
    · exact absurd h (List.not_mem_nil c)


theorem insufficient_ne_exhausted (count n : Int) (hc : 0 ≤ count) :
    ascii "cannot draw " ++ formatInt count ++ ascii " cards, deck has only " ++ formatInt n
      ≠ ascii "cannot draw any cards, deck is empty" := by
  intro h
  have hsplit : ascii "cannot draw any cards, deck is empty"
      = ascii "cannot draw " ++ ascii "any cards, deck is empty" := by decide
  rw [hsplit, List.append_assoc, List.append_assoc] at h
  have h' := List.append_cancel_left h
  obtain ⟨hne, hdig⟩ := formatInt_digits count hc
  cases hf : formatInt count with
  | nil => exact hne hf
  | cons b tl =>
    rw [hf] at h' hdig
    have hb : b = 97 := by
      have := congrArg List.head? h'
      simpa [ascii] using this
    have hmem := hdig b (List.mem_cons_self b tl)
    rw [hb] at hmem
    exact absurd hmem (by decide)

theorem invalidUUID_ne_notFound (s t : GoString) :
    ascii "input UUID '" ++ s ++ ascii "' is not a valid UUID4 value"
      ≠ ascii "deck not found for the input uuid " ++ t := by
  intro h
  have := congrArg List.head? h
  simp [ascii] at this

/-- C1: a draw of `k` cards, `1 ≤ k ≤ len(cs)`, from a deck registered under
the id the string parses to succeeds; the hand is the first `k` cards in
order; the registry then holds under the same id a deck with the same
`DeckId` and `Shuffled` whose cards are the former cards without the first
`k`, so the number of cards falls by exactly `k` and hand followed by the
remaining cards is the former card sequence. -/
theorem DrawCards_success (Parse : GoString → Option UUID) (reg : Registry)
    (deckId : GoString) (id : UUID) (deck : Deck) (k : Nat)
    (hparse : Parse deckId = some id) (hreg : reg.lookup id = some deck)
    (hkey : deck.DeckId = id) (hk1 : 1 ≤ k) (hk2 : k ≤ deck.Cards.length) :
    (DrawCards Parse reg deckId k).1.2 = none ∧
    (DrawCards Parse reg deckId k).1.1 = deck.Cards.take k ∧
    ∃ deck1 : Deck, (DrawCards Parse reg deckId k).2.lookup id = some deck1 ∧
      deck1.DeckId = deck.DeckId ∧ deck1.Shuffled = deck.Shuffled ∧
      deck1.Cards = deck.Cards.drop k ∧
      deck1.Cards.length + k = deck.Cards.length ∧
      (DrawCards Parse reg deckId k).1.1 ++ deck1.Cards = deck.Cards := by
  have hpos : (0 : Int) < (k : Int) := by exact_mod_cast hk1
  have hlen : ¬ deck.Cards.length = 0 := by omega
  have hgt : ¬ ((k : Int) > (deck.Cards.length : Int)) := by
    simp only [gt_iff_lt, not_lt]
    exact_mod_cast hk2
  rw [DrawCards_of_open_ok Parse reg deckId k hpos deck
    (OpenDeck_found Parse reg deckId id deck hparse hreg)]
  rw [if_neg hlen, if_neg hgt]
  refine ⟨rfl, by simp, { deck with Cards := deck.Cards.drop k }, ?_, rfl, rfl, rfl, ?_, ?_⟩
  · simp only [Int.toNat_ofNat, hkey]
    exact Finmap.lookup_insert reg
  · simp only [List.length_drop]
    omega
  · simp

/-- Witness of C1 -/
theorem DrawCards_success_witness :
    (sampleParse (ascii "d7") = some 7 ∧ sampleRegistry.lookup 7 = some sampleDeck ∧
      sampleDeck.DeckId = 7 ∧ 1 ≤ 1 ∧ 1 ≤ sampleDeck.Cards.length) ∧
    ((DrawCards sampleParse sampleRegistry (ascii "d7") (1 : Nat)).1.2 = none ∧
    (DrawCards sampleParse sampleRegistry (ascii "d7") (1 : Nat)).1.1
      = sampleDeck.Cards.take 1 ∧
    ∃ deck1 : Deck,
      (DrawCards sampleParse sampleRegistry (ascii "d7") (1 : Nat)).2.lookup 7 = some deck1 ∧
      deck1.DeckId = sampleDeck.DeckId ∧ deck1.Shuffled = sampleDeck.Shuffled ∧
      deck1.Cards = sampleDeck.Cards.drop 1 ∧
      deck1.Cards.length + 1 = sampleDeck.Cards.length ∧
      (DrawCards sampleParse sampleRegistry (ascii "d7") (1 : Nat)).1.1 ++ deck1.Cards
        = sampleDeck.Cards) :=
  ⟨⟨by decide, by decide, rfl, by decide, by decide⟩,
    DrawCards_success sampleParse sampleRegistry (ascii "d7") 7 sampleDeck 1
      (by decide) (by decide) rfl (by decide) (by decide)⟩

/-- C7: `DrawCards` is all-or-nothing: whenever it returns an error, whatever
the cause, the registry after the call is the registry before it. -/
theorem DrawCards_all_or_nothing (Parse : GoString → Option UUID) (reg : Registry)
    (deckId : GoString) (count : Int)
    (h : (DrawCards Parse reg deckId count).1.2 ≠ none) :
    (DrawCards Parse reg deckId count).2 = reg :=
  DrawCards_error_frame Parse reg deckId count h

/-- Witness of C7 -/
theorem DrawCards_all_or_nothing_witness :
    (DrawCards sampleParse sampleRegistry (ascii "d7") 5).1.2 ≠ none ∧
    (DrawCards sampleParse sampleRegistry (ascii "d7") 5).2 = sampleRegistry :=
  ⟨by decide,
    DrawCards_all_or_nothing sampleParse sampleRegistry (ascii "d7") 5 (by decide)⟩

/-- C9: for every count `≤ 0` and every id string, registry and outcome of
`uuid.Parse`, `DrawCards` fails with `count must be more than zero`, returns
no cards and leaves the registry as it was. -/
theorem DrawCards_invalid_count (Parse : GoString → Option UUID) (reg : Registry)
    (deckId : GoString) (count : Int) (h : count ≤ 0) :
    DrawCards Parse reg deckId count =
      (([], some (ascii "count must be more than zero")), reg) := by
  simp [DrawCards, h]


/-- Witness of C9 -/
theorem DrawCards_invalid_count_witness :
    (0 : Int) ≤ 0 ∧
    DrawCards sampleParse sampleRegistry (ascii "not an id") 0 =
      (([], some (ascii "count must be more than zero")), sampleRegistry) :=
  ⟨by decide,
    DrawCards_invalid_count sampleParse sampleRegistry (ascii "not an id") 0 (by decide)⟩

/-- The digits produced are put in front of the digits already there. -/
theorem toDigitsCore_append (fuel : Nat) : ∀ (n : Nat) (ds : List Char),
    Nat.toDigitsCore 10 fuel n ds = Nat.toDigitsCore 10 fuel n [] ++ ds := by
  induction fuel with
  | zero => intro n ds; simp [Nat.toDigitsCore]
  | succ f ih =>
    intro n ds
    simp only [Nat.toDigitsCore]
    split
    · simp
    · rw [ih _ (Nat.digitChar (n % 10) :: ds), ih _ [Nat.digitChar (n % 10)]]
      simp

theorem digitChar_byte (k : Nat) (hk : k < 10) :
    (UInt8.ofNat (Nat.digitChar k).toNat).toNat = 48 + k := by
  interval_cases k <;> decide

theorem digits_fold (fuel : Nat) : ∀ n : Nat, n < fuel →
    ((Nat.toDigitsCore 10 fuel n []).map (fun c => UInt8.ofNat c.toNat)).foldl
      (fun acc b =>
        match acc with
        | none => none
        | some m =>
          if 48 ≤ b.toNat ∧ b.toNat ≤ 57 then some (10 * m + (b.toNat - 48)) else none)
      (some 0) = some n := by
  induction fuel with
  | zero => intro n hn; exact absurd hn (Nat.not_lt_zero n)
  | succ f ih =>
    intro n hn
    have hmod : n % 10 < 10 := Nat.mod_lt _ (by decide)
    have hb := digitChar_byte (n % 10) hmod
    simp only [Nat.toDigitsCore]
    split
    · rename_i hz
      simp only [List.map_cons, List.map_nil, List.foldl_cons, List.foldl_nil, hb]
      have : 48 ≤ 48 + n % 10 ∧ 48 + n % 10 ≤ 57 := by omega
      rw [if_pos this]
      congr 1
      omega
    · rename_i hz
      have hlt : n / 10 < f := by omega
      rw [toDigitsCore_append f (n / 10) [Nat.digitChar (n % 10)]]
      simp only [List.map_append, List.foldl_append, List.map_cons, List.map_nil,
        List.foldl_cons, List.foldl_nil]
      rw [ih (n / 10) hlt]
      simp only [hb]
      have : 48 ≤ 48 + n % 10 ∧ 48 + n % 10 ≤ 57 := by omega
      rw [if_pos this]
      congr 1
      omega

/-- Reading the rendering of a natural number as decimal digits gives the
number back. -/
theorem parseDigits_formatInt (n : Nat) : parseDigits (formatInt (n : Int)) = some n := by
  have hne := (formatInt_digits (n : Int) (Int.ofNat_nonneg n)).1
  unfold parseDigits
  rw [if_neg hne]
  have hneg : ¬ ((n : Int) < 0) := not_lt.mpr (Int.ofNat_nonneg n)
  simp only [formatInt, hneg, if_false, Int.toNat_ofNat]
  exact digits_fold (n + 1) n (Nat.lt_succ_self n)


/-- C8: for a registered deck and a count `> 0`: with zero cards the draw
fails with `cannot draw any cards, deck is empty` whatever the count; with
`n > 0` cards and `count > n` it fails with the different message
`cannot draw <count> cards, deck has only <n>`, in which the two numbers are
written in decimal (read back as decimal digits they are `count` and `n`; for
a count of 5 on a deck of 2 cards the message is
`cannot draw 5 cards, deck has only 2`); with `count ≤ n` it does not fail. -/
theorem DrawCards_exhausted_insufficient (Parse : GoString → Option UUID) (reg : Registry)
    (deckId : GoString) (id : UUID) (deck : Deck) (count : Int)
    (hparse : Parse deckId = some id) (hreg : reg.lookup id = some deck)
    (hc : 0 < count) :
    (deck.Cards.length = 0 →
      (DrawCards Parse reg deckId count).1.2 =
        some (ascii "cannot draw any cards, deck is empty")) ∧
    (0 < deck.Cards.length → (deck.Cards.length : Int) < count →
      (DrawCards Parse reg deckId count).1.2 =
        some (ascii "cannot draw " ++ formatInt count ++ ascii " cards, deck has only " ++
          formatInt deck.Cards.length) ∧
      (DrawCards Parse reg deckId count).1.2 ≠
        some (ascii "cannot draw any cards, deck is empty") ∧
      parseDigits (formatInt count) = some count.toNat ∧
      parseDigits (formatInt deck.Cards.length) = some deck.Cards.length) ∧
    (count ≤ (deck.Cards.length : Int) →
      (DrawCards Parse reg deckId count).1.2 = none) ∧
    (formatInt 1 = ascii "1" ∧ formatInt 2 = ascii "2" ∧ formatInt 5 = ascii "5" ∧
      formatInt 10 = ascii "10" ∧ formatInt 52 = ascii "52" ∧
      formatInt 2147483647 = ascii "2147483647" ∧
      (DrawCards sampleParse sampleRegistry (ascii "d7") 5).1.2 =
        some (ascii "cannot draw 5 cards, deck has only 2") ∧
      (DrawCards sampleParse sampleRegistry (ascii "d7") 10).1.2 =
        some (ascii "cannot draw 10 cards, deck has only 2")) := by
  rw [DrawCards_of_open_ok Parse reg deckId count hc deck
    (OpenDeck_found Parse reg deckId id deck hparse hreg)]
  refine ⟨?_, ?_, ?_, by decide⟩
  · intro h0
    rw [if_pos h0]
  · intro hpos hlt
    have h0 : ¬ deck.Cards.length = 0 := by omega
    rw [if_neg h0, if_pos hlt]
    refine ⟨rfl, ?_, ?_, parseDigits_formatInt deck.Cards.length⟩
    · intro h
      exact insufficient_ne_exhausted count _ (le_of_lt hc) (Option.some.inj h)
    · have hcount : ((count.toNat : Nat) : Int) = count := Int.toNat_of_nonneg (le_of_lt hc)
      have := parseDigits_formatInt count.toNat
      rwa [hcount] at this
  · intro hle
    have h0 : ¬ deck.Cards.length = 0 := by
      intro h0
      rw [h0] at hle
      exact absurd hc (not_lt.mpr hle)
    have hgt : ¬ (count > (deck.Cards.length : Int)) := not_lt.mpr hle
    rw [if_neg h0, if_neg hgt]

/-- Witness of C8 -/
theorem DrawCards_exhausted_insufficient_witness :
    (sampleParse (ascii "d7") = some 7 ∧ sampleRegistry.lookup 7 = some sampleDeck ∧
      (0 : Int) < 5) ∧
    (0 < sampleDeck.Cards.length ∧ (sampleDeck.Cards.length : Int) < 5) ∧
    (DrawCards sampleParse sampleRegistry (ascii "d7") 5).1.2 =
      some (ascii "cannot draw 5 cards, deck has only 2") ∧
    (DrawCards sampleParse sampleRegistry (ascii "d7") 5).1.2 ≠
      some (ascii "cannot draw any cards, deck is empty") ∧
    parseDigits (formatInt 5) = some 5 ∧
    parseDigits (formatInt sampleDeck.Cards.length) = some 2 :=
  have h := (DrawCards_exhausted_insufficient sampleParse sampleRegistry (ascii "d7") 7
    sampleDeck 5 (by decide) (by decide) (by decide)).2.1 (by decide) (by decide)
  ⟨⟨by decide, by decide, by decide⟩, ⟨by decide, by decide⟩,
    h.1.trans (by decide), h.2.1, h.2.2.1, h.2.2.2⟩

/-- C10: `OpenDeck` fails exactly when the id string does not parse or parses
to an id absent from the registry; a string that does not parse always gets
the invalid-UUID error, an absent id the deck-not-found error, the two
messages are never equal, and whenever `OpenDeck` fails `DrawCards` with a
positive count fails with the same error. -/
theorem OpenDeck_error_iff (Parse : GoString → Option UUID) (reg : Registry)
    (deckId : GoString) :
    ((OpenDeck Parse reg deckId).1.2 ≠ none ↔
      Parse deckId = none ∨ ∃ id, Parse deckId = some id ∧ reg.lookup id = none) ∧
    (Parse deckId = none →
      (OpenDeck Parse reg deckId).1.2 =
        some (ascii "input UUID '" ++ deckId ++ ascii "' is not a valid UUID4 value")) ∧
    (∀ id, Parse deckId = some id → reg.lookup id = none →
      (OpenDeck Parse reg deckId).1.2 =
        some (ascii "deck not found for the input uuid " ++ deckId)) ∧
    (∀ s t : GoString,
      ascii "input UUID '" ++ s ++ ascii "' is not a valid UUID4 value" ≠
        ascii "deck not found for the input uuid " ++ t) ∧
    (∀ count : Int, 0 < count → (OpenDeck Parse reg deckId).1.2 ≠ none →
      (DrawCards Parse reg deckId count).1.2 = (OpenDeck Parse reg deckId).1.2) := by
  refine ⟨?_, ?_, ?_, invalidUUID_ne_notFound, ?_⟩
  · cases hp : Parse deckId with
    | none => simp [OpenDeck_parse_error Parse reg deckId hp]
    | some id =>
      cases hl : reg.lookup id with
      | none => simp [OpenDeck_not_found Parse reg deckId id hp hl, hl]
      | some deck => simp [OpenDeck_found Parse reg deckId id deck hp hl, hl]
  · intro hp
    rw [OpenDeck_parse_error Parse reg deckId hp]
  · intro id hp hl
    rw [OpenDeck_not_found Parse reg deckId id hp hl]
  · intro count hc
    cases hp : Parse deckId with
    | none =>
      intro _
      rw [DrawCards_of_open_error Parse reg deckId count hc _ _
        (OpenDeck_parse_error Parse reg deckId hp), OpenDeck_parse_error Parse reg deckId hp]
    | some id =>
      cases hl : reg.lookup id with
      | none =>
        intro _
        rw [DrawCards_of_open_error Parse reg deckId count hc _ _
          (OpenDeck_not_found Parse reg deckId id hp hl),
          OpenDeck_not_found Parse reg deckId id hp hl]
      | some deck =>
        intro h
        rw [OpenDeck_found Parse reg deckId id deck hp hl] at h
        exact absurd rfl h

/-! ## Facts about building a deck from codes -/

theorem validateCardCode_names_code (code err : GoString)
    (h : validateCardCode code = some err) :
    ascii "code " ++ TrimSpace code <+: err := by
  unfold validateCardCode validateTrimmed at h
  split at h
  · rw [← Option.some.inj h]
    exact List.prefix_append _ _
  · simp only at h
    split at h
    · rw [← Option.some.inj h]
      exact List.prefix_append _ _
    · split at h
      · rw [← Option.some.inj h]
        exact List.prefix_append _ _
      · exact absurd h (by simp)

theorem validateTrimmed_lookups (c : GoString) (h : validateTrimmed c = none) :
    mapLookup valueNames (c.take (c.length - 1)) = some (cardOfCode c).Value ∧
    mapLookup suitNames (c.drop (c.length - 1)) = some (cardOfCode c).Suit := by
  unfold validateTrimmed at h
  split at h
  · exact absurd h (by simp)
  · simp only at h
    split at h
    · exact absurd h (by simp)
    · split at h
      · exact absurd h (by simp)
      · rename_i _ hs hv
        have hs' : (mapLookup suitNames (c.drop (c.length - 1))).isSome = true := by
          rw [Option.isSome_iff_ne_none]; simpa using hs
        have hv' : (mapLookup valueNames (c.take (c.length - 1))).isSome = true := by
          rw [Option.isSome_iff_ne_none]; simpa using hv
        obtain ⟨v, hv''⟩ := Option.isSome_iff_exists.mp hv'
        obtain ⟨u, hs''⟩ := Option.isSome_iff_exists.mp hs'
        simp [cardOfCode, mapIndex, hv'', hs'']

theorem fromCodesLoop_ok (toks : List GoString) :
    ∀ acc : List Card, (∀ t ∈ toks, validateCardCode t = none) →
      fromCodesLoop toks acc =
        ({ Deck.zero with Cards := acc ++ toks.map (fun t => cardOfCode (TrimSpace t)) },
          none) := by
  induction toks with
  | nil => intro acc _; simp [fromCodesLoop]
  | cons t ts ih =>
    intro acc h
    have ht : validateCardCode (TrimSpace t) = none := by
      rw [validateCardCode_TrimSpace]; exact h t (List.mem_cons_self t ts)
    rw [fromCodesLoop]
    simp only [ht]
    rw [ih _ (fun u hu => h u (List.mem_cons_of_mem t hu))]
    simp

theorem fromCodesLoop_error (pre : List GoString) (tok : GoString) (post : List GoString)
    (err : GoString) (hpre : ∀ t ∈ pre, validateCardCode t = none)
    (htok : validateCardCode tok = some err) :
    ∀ acc : List Card, fromCodesLoop (pre ++ tok :: post) acc = (Deck.zero, some err) := by
  induction pre with
  | nil =>
    intro acc
    have ht : validateCardCode (TrimSpace tok) = some err := by
      rw [validateCardCode_TrimSpace]; exact htok
    rw [List.nil_append, fromCodesLoop]
    simp only [ht]
  | cons t ts ih =>
    intro acc
    have ht : validateCardCode (TrimSpace t) = none := by
      rw [validateCardCode_TrimSpace]; exact hpre t (List.mem_cons_self t ts)
    rw [List.cons_append, fromCodesLoop]
    simp only [ht]
    exact ih (fun u hu => hpre u (List.mem_cons_of_mem t hu)) _

/-- Either every piece is valid, or there is a first invalid piece. -/
theorem first_invalid (toks : List GoString) :
    (∀ t ∈ toks, validateCardCode t = none) ∨
    ∃ pre tok post err, toks = pre ++ tok :: post ∧
      (∀ t ∈ pre, validateCardCode t = none) ∧ validateCardCode tok = some err := by
  induction toks with
  | nil => exact Or.inl (by simp)
  | cons t ts ih =>
    cases hv : validateCardCode t with
    | some err => exact Or.inr ⟨[], t, ts, err, rfl, by simp, hv⟩
    | none =>
      rcases ih with h | ⟨pre, tok, post, err, hsplit, hpre, htok⟩
      · left
        intro u hu
        rcases List.mem_cons.mp hu with h1 | h1
        · rw [h1]; exact hv
        · exact h u h1
      · right
        refine ⟨t :: pre, tok, post, err, by rw [hsplit]; rfl, ?_, htok⟩
        intro u hu
        rcases List.mem_cons.mp hu with h1 | h1
        · rw [h1]; exact hv
        · exact hpre u h1

theorem CreateNewDeck_codes_ok (newId : UUID) (rnd : Nat → Nat) (reg : Registry)
    (shuffle : Bool) (codes : GoString) (hne : codes ≠ [])
    (h : ∀ t ∈ Split codes comma, validateCardCode t = none) :
    CreateNewDeck newId rnd reg shuffle codes =
      (({ DeckId := newId,
          Cards := if shuffle then
              CardDeck.shuffle rnd ((Split codes comma).map (fun t => cardOfCode (TrimSpace t)))
            else (Split codes comma).map (fun t => cardOfCode (TrimSpace t)),
          Shuffled := shuffle }, none),
       reg.insert newId
        { DeckId := newId,
          Cards := if shuffle then
              CardDeck.shuffle rnd ((Split codes comma).map (fun t => cardOfCode (TrimSpace t)))
            else (Split codes comma).map (fun t => cardOfCode (TrimSpace t)),
          Shuffled := shuffle }) := by
  have hlen : ¬ codes.length = 0 := fun h0 => hne (List.length_eq_zero.mp h0)
  unfold CreateNewDeck
  rw [if_neg hlen, newDeckFromCodes, fromCodesLoop_ok _ _ h]
  cases shuffle <;> simp [Deck.zero]

theorem CreateNewDeck_codes_error (newId : UUID) (rnd : Nat → Nat) (reg : Registry)
    (shuffle : Bool) (codes : GoString) (hne : codes ≠ [])
    (pre : List GoString) (tok : GoString) (post : List GoString) (err : GoString)
    (hsplit : Split codes comma = pre ++ tok :: post)
    (hpre : ∀ t ∈ pre, validateCardCode t = none)
    (htok : validateCardCode tok = some err) :
    CreateNewDeck newId rnd reg shuffle codes = ((Deck.zero, some err), reg) := by
  have hlen : ¬ codes.length = 0 := fun h0 => hne (List.length_eq_zero.mp h0)
  unfold CreateNewDeck
  rw [if_neg hlen, newDeckFromCodes, hsplit, fromCodesLoop_error pre tok post err hpre htok]


/-- C5: for a non-empty codes string whose comma-separated pieces are all
valid after trimming, `CreateNewDeck(false, codes)` succeeds with one card per
piece in input order: the code of the card is the trimmed piece, its value
the name found for the piece without its last byte and its suit the name
found for the last byte; `OpenDeck` on a string that parses to the new id
then returns that same deck. -/
theorem CreateNewDeck_from_codes (Parse : GoString → Option UUID) (newId : UUID)
    (rnd : Nat → Nat) (reg : Registry) (codes idStr : GoString) (hne : codes ≠ [])
    (hvalid : ∀ tok ∈ Split codes comma, validateCardCode tok = none)
    (hparse : Parse idStr = some newId) :
    (CreateNewDeck newId rnd reg false codes).1.2 = none ∧
    List.Forall₂
      (fun tok card =>
        card.Code = TrimSpace tok ∧
        mapLookup valueNames ((TrimSpace tok).take ((TrimSpace tok).length - 1))
          = some card.Value ∧
        mapLookup suitNames ((TrimSpace tok).drop ((TrimSpace tok).length - 1))
          = some card.Suit)
      (Split codes comma) (CreateNewDeck newId rnd reg false codes).1.1.Cards ∧
    (OpenDeck Parse (CreateNewDeck newId rnd reg false codes).2 idStr).1 =
      ((CreateNewDeck newId rnd reg false codes).1.1, none) := by
  rw [CreateNewDeck_codes_ok newId rnd reg false codes hne hvalid]
  refine ⟨rfl, ?_, ?_⟩
  · simp only [Bool.false_eq_true, if_false]
    rw [List.forall₂_map_right_iff, List.forall₂_same]
    intro tok htok
    have hv : validateTrimmed (TrimSpace tok) = none := hvalid tok htok
    exact ⟨rfl, validateTrimmed_lookups _ hv⟩
  · rw [OpenDeck_found Parse _ idStr newId _ hparse (Finmap.lookup_insert reg)]

/-- Witness of C5 -/
theorem CreateNewDeck_from_codes_witness :
    (ascii "AS, 10H" ≠ [] ∧
      (∀ tok ∈ Split (ascii "AS, 10H") comma, validateCardCode tok = none) ∧
      sampleParse (ascii "d8") = some 8) ∧
    ((CreateNewDeck 8 (fun i => i) sampleRegistry false (ascii "AS, 10H")).1.2 = none ∧
    List.Forall₂
      (fun tok card =>
        card.Code = TrimSpace tok ∧
        mapLookup valueNames ((TrimSpace tok).take ((TrimSpace tok).length - 1))
          = some card.Value ∧
        mapLookup suitNames ((TrimSpace tok).drop ((TrimSpace tok).length - 1))
          = some card.Suit)
      (Split (ascii "AS, 10H") comma)
      (CreateNewDeck 8 (fun i => i) sampleRegistry false (ascii "AS, 10H")).1.1.Cards ∧
    (OpenDeck sampleParse
        (CreateNewDeck 8 (fun i => i) sampleRegistry false (ascii "AS, 10H")).2
        (ascii "d8")).1 =
      ((CreateNewDeck 8 (fun i => i) sampleRegistry false (ascii "AS, 10H")).1.1, none)) :=
  ⟨⟨by decide, by decide, by decide⟩,
    CreateNewDeck_from_codes sampleParse 8 (fun i => i) sampleRegistry (ascii "AS, 10H")
      (ascii "d8") (by decide) (by decide) (by decide)⟩

/-- C6: for every shuffle flag and non-empty codes string, `CreateNewDeck`
returns an error exactly when some comma-separated piece is invalid after
trimming; the registry is then unchanged and the error is the one
`validateCardCode` gives for the first invalid piece, whose message starts
with `code ` followed by that trimmed piece.  A piece that trims to the empty
string is invalid, so a trailing comma (`AS,`) and a white-space-only input
are errors. -/
theorem CreateNewDeck_error_iff (newId : UUID) (rnd : Nat → Nat) (reg : Registry)
    (shuffle : Bool) (codes : GoString) (hne : codes ≠ []) :
    ((CreateNewDeck newId rnd reg shuffle codes).1.2 ≠ none ↔
      ∃ tok ∈ Split codes comma, validateCardCode tok ≠ none) ∧
    (∀ err, (CreateNewDeck newId rnd reg shuffle codes).1.2 = some err →
      (CreateNewDeck newId rnd reg shuffle codes).2 = reg ∧
      ∃ pre tok post, Split codes comma = pre ++ tok :: post ∧
        (∀ t ∈ pre, validateCardCode t = none) ∧
        validateCardCode tok = some err ∧
        ascii "code " ++ TrimSpace tok <+: err) ∧
    (∀ tok : GoString, TrimSpace tok = [] → validateCardCode tok ≠ none) ∧
    (CreateNewDeck newId rnd reg shuffle (ascii "AS,")).1.2 ≠ none ∧
    (CreateNewDeck newId rnd reg shuffle (ascii "  ")).1.2 ≠ none := by
  refine ⟨?_, ?_, ?_, ?_, ?_⟩
  · rcases first_invalid (Split codes comma) with hall | ⟨pre, tok, post, err, hs, hpre, htok⟩
    · rw [CreateNewDeck_codes_ok newId rnd reg shuffle codes hne hall]
      constructor
      · intro h; exact absurd rfl h
      · rintro ⟨tok, hmem, hbad⟩
        exact absurd (hall tok hmem) hbad
    · rw [CreateNewDeck_codes_error newId rnd reg shuffle codes hne pre tok post err hs hpre htok]
      constructor
      · intro _
        refine ⟨tok, ?_, ?_⟩
        · rw [hs]; simp
        · rw [htok]; simp
      · intro _; simp
  · intro err herr
    rcases first_invalid (Split codes comma) with hall | ⟨pre, tok, post, e, hs, hpre, htok⟩
    · rw [CreateNewDeck_codes_ok newId rnd reg shuffle codes hne hall] at herr
      exact absurd herr (by simp)
    · rw [CreateNewDeck_codes_error newId rnd reg shuffle codes hne pre tok post e hs hpre htok]
        at herr ⊢
      have he : e = err := Option.some.inj herr
      subst he
      exact ⟨rfl, pre, tok, post, hs, hpre, htok, validateCardCode_names_code tok e htok⟩
  · intro tok ht
    unfold validateCardCode
    rw [ht]
    decide
  · rw [CreateNewDeck_codes_error newId rnd reg shuffle (ascii "AS,") (by decide)
      [ascii "AS"] [] [] (ascii "code  is invalid") (by decide) (by decide) (by decide)]
    simp
  · rw [CreateNewDeck_codes_error newId rnd reg shuffle (ascii "  ") (by decide)
      [] (ascii "  ") [] (ascii "code  is invalid") (by decide) (by decide) (by decide)]
    simp

/-- Witness of C6 -/
theorem CreateNewDeck_error_iff_witness :
    ascii "AS,11D,AC" ≠ [] ∧
    (CreateNewDeck 8 (fun i => i) sampleRegistry true (ascii "AS,11D,AC")).1.2 =
      some (ascii "code 11D is invalid, should have proper card value") ∧
    (CreateNewDeck 8 (fun i => i) sampleRegistry true (ascii "AS,11D,AC")).2 =
      sampleRegistry :=
  have h := CreateNewDeck_error_iff 8 (fun i => i) sampleRegistry true (ascii "AS,11D,AC")
    (by decide)
  ⟨by decide, by decide,
    (h.2.1 (ascii "code 11D is invalid, should have proper card value") (by decide)).1⟩

/-! ## The registry invariant -/

theorem Keyed_empty : Keyed (∅ : Registry) := by
  intro id deck h
  simp at h

theorem Keyed_insert (reg : Registry) (deck : Deck) (h : Keyed reg) :
    Keyed (reg.insert deck.DeckId deck) := by
  intro id d hd
  by_cases hid : id = deck.DeckId
  · subst hid
    rw [Finmap.lookup_insert] at hd
    rw [← Option.some.inj hd]
  · rw [Finmap.lookup_insert_of_ne reg hid] at hd
    exact h id d hd

theorem CreateNewDeck_Keyed (newId : UUID) (rnd : Nat → Nat) (reg : Registry)
    (shuffle : Bool) (codes : GoString) (h : Keyed reg) :
    Keyed (CreateNewDeck newId rnd reg shuffle codes).2 := by
  unfold CreateNewDeck
  split
  · exact h
  · exact Keyed_insert reg _ h

theorem DrawCards_Keyed (Parse : GoString → Option UUID) (reg : Registry)
    (deckId : GoString) (count : Int) (h : Keyed reg) :
    Keyed (DrawCards Parse reg deckId count).2 := by
  by_cases herr : (DrawCards Parse reg deckId count).1.2 = none
  · by_cases hc : count ≤ 0
    · simp [DrawCards, hc] at herr
    · have hpos : 0 < count := not_le.mp hc
      cases hp : Parse deckId with
      | none =>
        rw [DrawCards_of_open_error Parse reg deckId count hpos _ _
          (OpenDeck_parse_error Parse reg deckId hp)]
        exact h
      | some id =>
        cases hl : reg.lookup id with
        | none =>
          rw [DrawCards_of_open_error Parse reg deckId count hpos _ _
            (OpenDeck_not_found Parse reg deckId id hp hl)]
          exact h
        | some deck =>
          rw [DrawCards_of_open_ok Parse reg deckId count hpos deck
            (OpenDeck_found Parse reg deckId id deck hp hl)]
          split
          · exact h
          · split
            · exact h
            · exact Keyed_insert reg { deck with Cards := deck.Cards.drop count.toNat } h
  · rw [DrawCards_error_frame Parse reg deckId count herr]
    exact h

/-! ## Facts about the shuffle -/

theorem swapAt_length (cards : List Card) (i pos : Nat) :
    (swapAt cards i pos).length = cards.length := by
  simp [swapAt]

theorem boole_le_count (cards : List Card) (i : Nat) (h : i < cards.length) (b : Card) :
    (if cards[i] = b then 1 else 0) ≤ cards.count b := by
  split
  · rename_i hb
    have hmem : b ∈ cards := hb ▸ List.getElem_mem h
    exact List.count_pos_iff.mpr hmem
  · exact Nat.zero_le _

/-- Exchanging two positions of a list rearranges it. -/
theorem swapAt_perm (cards : List Card) (i pos : Nat) (hi : i < cards.length)
    (hp : pos < cards.length) : (swapAt cards i pos).Perm cards := by
  have gi : cards.getD i default = cards[i] := by simp [List.getD, hi]
  have gp : cards.getD pos default = cards[pos] := by simp [List.getD, hp]
  unfold swapAt
  rw [gi, gp]
  by_cases hip : i = pos
  · subst hip
    have hself : cards.set i cards[i] = cards := by
      apply List.ext_getElem (by simp)
      intro j h1 h2
      rw [List.getElem_set]
      split
      · rename_i hij; subst hij; rfl
      · rfl
    rw [hself, hself]
  · rw [List.perm_iff_count]
    intro b
    have hp' : pos < (cards.set i cards[pos]).length := by simpa using hp
    rw [List.count_set _ _ _ _ hp', List.count_set _ _ _ _ hi]
    have hget : (cards.set i cards[pos])[pos] = cards[pos] := by
      rw [List.getElem_set]
      simp [hip]
    rw [hget]
    have h1 := boole_le_count cards i hi b
    have h2 := boole_le_count cards pos hp b
    simp only [beq_iff_eq]
    omega

theorem foldl_swapAt_perm (rnd : Nat → Nat) (n : Nat) (idx : List Nat) :
    ∀ cs : List Card, cs.length = n → (∀ i ∈ idx, i < n) →
      (idx.foldl (fun cs i => swapAt cs i (rnd i % n)) cs).Perm cs := by
  induction idx with
  | nil => intro cs _ _; exact List.Perm.refl cs
  | cons i rest ih =>
    intro cs hlen hidx
    have hi : i < n := hidx i (List.mem_cons_self i rest)
    have hpos : rnd i % n < n := Nat.mod_lt _ (Nat.lt_of_le_of_lt (Nat.zero_le i) hi)
    simp only [List.foldl_cons]
    have hstep : (swapAt cs i (rnd i % n)).Perm cs :=
      swapAt_perm cs i (rnd i % n) (hlen ▸ hi) (hlen ▸ hpos)
    have hlen1 : (swapAt cs i (rnd i % n)).length = n := by
      rw [swapAt_length]; exact hlen
    exact (ih _ hlen1 (fun j hj => hidx j (List.mem_cons_of_mem i hj))).trans hstep

/-- The shuffle rearranges the cards: the result is a permutation of the input. -/
theorem shuffle_perm (rnd : Nat → Nat) (cards : List Card) :
    (shuffle rnd cards).Perm cards := by
  unfold shuffle
  exact foldl_swapAt_perm rnd cards.length (List.range cards.length) cards rfl
    (fun i hi => List.mem_range.mp hi)

/-! ## Creating, opening and shuffling -/

/-- The deck built before shuffling, id assignment and registration. -/
theorem CreateNewDeck_result (newId : UUID) (rnd : Nat → Nat) (reg : Registry)
    (shuffle : Bool) (codes : GoString) :
    ((CreateNewDeck newId rnd reg shuffle codes).1.2 ≠ none ∧
      (CreateNewDeck newId rnd reg shuffle codes).2 = reg) ∨
    ∃ d : Deck,
      (if codes.length = 0 then (newSequentialDeck, none) else newDeckFromCodes codes)
        = (d, none) ∧
      CreateNewDeck newId rnd reg shuffle codes =
        (({ DeckId := newId,
            Cards := if shuffle then CardDeck.shuffle rnd d.Cards else d.Cards,
            Shuffled := shuffle }, none),
         reg.insert newId
          { DeckId := newId,
            Cards := if shuffle then CardDeck.shuffle rnd d.Cards else d.Cards,
            Shuffled := shuffle }) := by
  unfold CreateNewDeck
  split
  · left
    simp
  · rename_i d hd
    right
    refine ⟨d, hd, ?_⟩
    cases shuffle <;> simp

/-- C11: whenever `CreateNewDeck` succeeds, the returned deck carries the new
id and the given flag, it is the deck stored in the registry under its own
`DeckId`, and `OpenDeck` with a string that parses to that id returns, right
afterwards, no error and a deck equal to the returned one. -/
theorem CreateNewDeck_then_OpenDeck (Parse : GoString → Option UUID) (newId : UUID)
    (rnd : Nat → Nat) (reg : Registry) (shuffle : Bool) (codes idStr : GoString)
    (hok : (CreateNewDeck newId rnd reg shuffle codes).1.2 = none)
    (hparse : Parse idStr = some newId) :
    (CreateNewDeck newId rnd reg shuffle codes).1.1.DeckId = newId ∧
    (CreateNewDeck newId rnd reg shuffle codes).1.1.Shuffled = shuffle ∧
    (CreateNewDeck newId rnd reg shuffle codes).2.lookup
        (CreateNewDeck newId rnd reg shuffle codes).1.1.DeckId
      = some (CreateNewDeck newId rnd reg shuffle codes).1.1 ∧
    (OpenDeck Parse (CreateNewDeck newId rnd reg shuffle codes).2 idStr).1
      = ((CreateNewDeck newId rnd reg shuffle codes).1.1, none) := by
  rcases CreateNewDeck_result newId rnd reg shuffle codes with ⟨herr, _⟩ | ⟨d, _, hres⟩
  · exact absurd hok herr
  · rw [hres]
    refine ⟨rfl, rfl, Finmap.lookup_insert reg, ?_⟩
    rw [OpenDeck_found Parse _ idStr newId _ hparse (Finmap.lookup_insert reg)]

/-- Witness of C11 -/
theorem CreateNewDeck_then_OpenDeck_witness :
    ((CreateNewDeck 8 (fun i => i + 1) sampleRegistry true (ascii "AS,10C")).1.2 = none ∧
      sampleParse (ascii "d8") = some 8) ∧
    ((CreateNewDeck 8 (fun i => i + 1) sampleRegistry true (ascii "AS,10C")).1.1.DeckId = 8 ∧
    (CreateNewDeck 8 (fun i => i + 1) sampleRegistry true (ascii "AS,10C")).1.1.Shuffled
      = true ∧
    (CreateNewDeck 8 (fun i => i + 1) sampleRegistry true (ascii "AS,10C")).2.lookup
        (CreateNewDeck 8 (fun i => i + 1) sampleRegistry true (ascii "AS,10C")).1.1.DeckId
      = some (CreateNewDeck 8 (fun i => i + 1) sampleRegistry true (ascii "AS,10C")).1.1 ∧
    (OpenDeck sampleParse
        (CreateNewDeck 8 (fun i => i + 1) sampleRegistry true (ascii "AS,10C")).2
        (ascii "d8")).1
      = ((CreateNewDeck 8 (fun i => i + 1) sampleRegistry true (ascii "AS,10C")).1.1, none)) :=
  ⟨⟨by decide, by decide⟩,
    CreateNewDeck_then_OpenDeck sampleParse 8 (fun i => i + 1) sampleRegistry true
      (ascii "AS,10C") (ascii "d8") (by decide) (by decide)⟩

/-- C12: `OpenDeck` never changes the registry, whether it succeeds or fails;
when it succeeds the id string parses and the returned deck is the deck stored
under the parsed id; a second `OpenDeck` with the same string returns the same
deck and error. -/
theorem OpenDeck_read_only (Parse : GoString → Option UUID) (reg : Registry)
    (deckId : GoString) :
    (OpenDeck Parse reg deckId).2 = reg ∧
    ((OpenDeck Parse reg deckId).1.2 = none →
      ∃ id, Parse deckId = some id ∧ reg.lookup id = some (OpenDeck Parse reg deckId).1.1) ∧
    (OpenDeck Parse (OpenDeck Parse reg deckId).2 deckId).1 = (OpenDeck Parse reg deckId).1 := by
  have hreg : (OpenDeck Parse reg deckId).2 = reg := by
    cases hp : Parse deckId with
    | none => rw [OpenDeck_parse_error Parse reg deckId hp]
    | some id =>
      cases hl : reg.lookup id with
      | none => rw [OpenDeck_not_found Parse reg deckId id hp hl]
      | some deck => rw [OpenDeck_found Parse reg deckId id deck hp hl]
  refine ⟨hreg, ?_, by rw [hreg]⟩
  intro hok
  cases hp : Parse deckId with
  | none =>
    rw [OpenDeck_parse_error Parse reg deckId hp] at hok
    exact absurd hok (by simp)
  | some id =>
    cases hl : reg.lookup id with
    | none =>
      rw [OpenDeck_not_found Parse reg deckId id hp hl] at hok
      exact absurd hok (by simp)
    | some deck =>
      rw [OpenDeck_found Parse reg deckId id deck hp hl]
      exact ⟨id, rfl, hl⟩

/-- C13: the shuffle returns a permutation of its input, of the same length,
for every outcome of the random picks; the cards of `CreateNewDeck(true, ...)`
are a permutation of the cards of `CreateNewDeck(false, ...)` for the same
codes, 52 of them for the full deck; with `shuffle = false` the cards are those
of the deck built before, in the same order. -/
theorem shuffle_permutation :
    (∀ (rnd : Nat → Nat) (cards : List Card),
      (shuffle rnd cards).Perm cards ∧ (shuffle rnd cards).length = cards.length) ∧
    (∀ (newId : UUID) (rnd : Nat → Nat) (reg : Registry) (codes : GoString),
      (CreateNewDeck newId rnd reg true codes).1.2 =
        (CreateNewDeck newId rnd reg false codes).1.2 ∧
      (CreateNewDeck newId rnd reg true codes).1.1.Cards.Perm
        (CreateNewDeck newId rnd reg false codes).1.1.Cards) ∧
    (∀ (newId : UUID) (rnd : Nat → Nat) (reg : Registry),
      (CreateNewDeck newId rnd reg true (ascii "")).1.1.Cards.length = 52) ∧
    (∀ (newId : UUID) (rnd : Nat → Nat) (reg : Registry) (codes : GoString),
      (CreateNewDeck newId rnd reg false codes).1.1.Cards =
        (if codes.length = 0 then newSequentialDeck
          else (newDeckFromCodes codes).1).Cards) := by
  refine ⟨fun rnd cards => ⟨shuffle_perm rnd cards, (shuffle_perm rnd cards).length_eq⟩,
    ?_, ?_, ?_⟩
  · intro newId rnd reg codes
    unfold CreateNewDeck
    split
    · exact ⟨rfl, List.Perm.refl _⟩
    · exact ⟨rfl, shuffle_perm rnd _⟩
  · intro newId rnd reg
    have he : ascii "" = [] := rfl
    have h : (CreateNewDeck newId rnd reg true []).1.1.Cards
        = shuffle rnd newSequentialDeck.Cards := by
      simp only [CreateNewDeck, List.length_nil, if_true]
    rw [he, h, (shuffle_perm rnd _).length_eq]
    decide
  · intro newId rnd reg codes
    unfold CreateNewDeck
    split
    · rename_i d e hd
      by_cases hc : codes.length = 0
      · rw [if_pos hc] at hd ⊢
        rw [(Prod.mk.inj hd).1]
      · rw [if_neg hc] at hd ⊢
        rw [hd]
    · rename_i d hd
      by_cases hc : codes.length = 0
      · rw [if_pos hc] at hd ⊢
        simp [(Prod.mk.inj hd).1]
      · rw [if_neg hc] at hd ⊢
        simp [hd]

/-- C14 (evaluation at the failing input): for three distinct cards there are
27 sequences of three picks in `0..2`, and the six orderings of the cards are
produced, in the order listed, by 4, 5, 5, 5, 4 and 4 of them: no number of
sequences is common to all orderings. -/
theorem shuffle_three_not_uniform :
    threeCards.Nodup ∧
    (pickSequences 3 3).length = 27 ∧
    [shuffleCount threeCards
        [cardOfCode (ascii "AS"), cardOfCode (ascii "KD"), cardOfCode (ascii "AC")],
      shuffleCount threeCards
        [cardOfCode (ascii "AS"), cardOfCode (ascii "AC"), cardOfCode (ascii "KD")],
      shuffleCount threeCards
        [cardOfCode (ascii "KD"), cardOfCode (ascii "AS"), cardOfCode (ascii "AC")],
      shuffleCount threeCards
        [cardOfCode (ascii "KD"), cardOfCode (ascii "AC"), cardOfCode (ascii "AS")],
      shuffleCount threeCards
        [cardOfCode (ascii "AC"), cardOfCode (ascii "AS"), cardOfCode (ascii "KD")],
      shuffleCount threeCards
        [cardOfCode (ascii "AC"), cardOfCode (ascii "KD"), cardOfCode (ascii "AS")]]
      = [4, 5, 5, 5, 4, 4] := by
  decide

/-- C15 (evaluation at the failing input): the unshuffled full deck lists, for
`i` in `0..3` and `j` in `0..12`, at index `13 * i + j` the card whose suit is
the `i`-th entry of `cardSuits` and whose value is the name of the `j`-th rank
token `A,2,...,10,J,Q,K`; the second entry of `cardSuits`, and so the suit of
the cards at indices 13 to 25, is the string `DIMONDS`, which is not
`DIAMONDS`. -/
theorem newSequentialDeck_order :
    (∀ (newId : UUID) (rnd : Nat → Nat) (reg : Registry),
      (CreateNewDeck newId rnd reg false (ascii "")).1.1.Cards = newSequentialDeck.Cards) ∧
    (∀ i ∈ List.range 4, ∀ j ∈ List.range 13,
      (newSequentialDeck.Cards.get? (13 * i + j)).map (fun c => (c.Suit, c.Value)) =
        some (([ascii "SPADES", ascii "DIMONDS", ascii "CLUBS", ascii "HEARTS"].getD i [],
          mapIndex valueNames
            ([ascii "A", ascii "2", ascii "3", ascii "4", ascii "5", ascii "6", ascii "7",
              ascii "8", ascii "9", ascii "10", ascii "J", ascii "Q", ascii "K"].getD j [])))) ∧
    (newSequentialDeck.Cards.get? 13).map Card.Suit = some (ascii "DIMONDS") ∧
    (newSequentialDeck.Cards.get? 13).map Card.Suit ≠ some (ascii "DIAMONDS") := by
  refine ⟨?_, by decide, by decide, by decide⟩
  intro newId rnd reg
  have he : ascii "" = [] := rfl
  rw [he]
  simp only [CreateNewDeck, List.length_nil, if_true]
  rfl

/-! ## Facts about successful and repeated draws -/

theorem DrawCards_ok_eq (Parse : GoString → Option UUID) (reg : Registry)
    (deckId : GoString) (id : UUID) (deck : Deck) (k : Nat)
    (hparse : Parse deckId = some id) (hreg : reg.lookup id = some deck)
    (hkey : deck.DeckId = id) (hk1 : 1 ≤ k) (hk2 : k ≤ deck.Cards.length) :
    DrawCards Parse reg deckId k =
      ((deck.Cards.take k, none),
        reg.insert id { deck with Cards := deck.Cards.drop k }) := by
  have hpos : (0 : Int) < (k : Int) := by exact_mod_cast hk1
  have hlen : ¬ deck.Cards.length = 0 := by omega
  have hgt : ¬ ((k : Int) > (deck.Cards.length : Int)) := by
    simp only [gt_iff_lt, not_lt]
    exact_mod_cast hk2
  rw [DrawCards_of_open_ok Parse reg deckId k hpos deck
    (OpenDeck_found Parse reg deckId id deck hparse hreg)]
  rw [if_neg hlen, if_neg hgt, hkey]
  simp

theorem DrawCards_empty_deck (Parse : GoString → Option UUID) (reg : Registry)
    (deckId : GoString) (id : UUID) (deck : Deck) (count : Int)
    (hparse : Parse deckId = some id) (hreg : reg.lookup id = some deck)
    (hempty : deck.Cards = []) :
    (DrawCards Parse reg deckId count).1.2 ≠ none ∧
    (DrawCards Parse reg deckId count).2 = reg := by
  have herr : (DrawCards Parse reg deckId count).1.2 ≠ none := by
    by_cases hc : count ≤ 0
    · simp [DrawCards, hc]
    · have hpos : 0 < count := not_le.mp hc
      rw [DrawCards_of_open_ok Parse reg deckId count hpos deck
        (OpenDeck_found Parse reg deckId id deck hparse hreg)]
      simp [hempty]
  exact ⟨herr, DrawCards_error_frame Parse reg deckId count herr⟩

theorem run_draws_empty_deck (Parse : GoString → Option UUID) (reg : Registry)
    (deckId : GoString) (id : UUID) (deck : Deck)
    (hparse : Parse deckId = some id) (hreg : reg.lookup id = some deck)
    (hempty : deck.Cards = []) (ks : List Int) :
    run Parse reg (ks.map (Call.drawCards deckId)) = reg := by
  induction ks with
  | nil => rfl
  | cons k rest ih =>
    simp only [run, List.map_cons, List.foldl_cons, step]
    rw [(DrawCards_empty_deck Parse reg deckId id deck k hparse hreg hempty).2]
    exact ih

/-- C16: after a registered deck of `n ≥ 1` cards is emptied by
`DrawCards(id, n)`, and after any number of further `DrawCards(id, k)` calls,
`OpenDeck(id)` succeeds and returns zero cards, and `DrawCards(id, k)` fails
for every `k`. -/
theorem exhausted_deck_rejects_draws (Parse : GoString → Option UUID) (reg : Registry)
    (deckId : GoString) (id : UUID) (deck : Deck)
    (hparse : Parse deckId = some id) (hreg : reg.lookup id = some deck)
    (hkey : deck.DeckId = id) (hn : 1 ≤ deck.Cards.length) :
    (DrawCards Parse reg deckId deck.Cards.length).1.2 = none ∧
    ∀ ks : List Int,
      (OpenDeck Parse
        (run Parse (DrawCards Parse reg deckId deck.Cards.length).2
          (ks.map (Call.drawCards deckId))) deckId).1.2 = none ∧
      (OpenDeck Parse
        (run Parse (DrawCards Parse reg deckId deck.Cards.length).2
          (ks.map (Call.drawCards deckId))) deckId).1.1.Cards = [] ∧
      ∀ k : Int,
        (DrawCards Parse
          (run Parse (DrawCards Parse reg deckId deck.Cards.length).2
            (ks.map (Call.drawCards deckId))) deckId k).1.2 ≠ none := by
  rw [DrawCards_ok_eq Parse reg deckId id deck deck.Cards.length hparse hreg hkey hn
    (Nat.le_refl _)]
  refine ⟨rfl, ?_⟩
  intro ks
  have hl : (reg.insert id { deck with Cards := deck.Cards.drop deck.Cards.length }).lookup id
      = some { deck with Cards := deck.Cards.drop deck.Cards.length } :=
    Finmap.lookup_insert reg
  have hempty : ({ deck with Cards := deck.Cards.drop deck.Cards.length } : Deck).Cards = [] := by
    simp
  simp only []
  rw [run_draws_empty_deck Parse _ deckId id _ hparse hl hempty ks]
  rw [OpenDeck_found Parse _ deckId id _ hparse hl]
  refine ⟨rfl, hempty, ?_⟩
  intro k
  exact (DrawCards_empty_deck Parse _ deckId id _ k hparse hl hempty).1

/-- Witness of C16 -/
theorem exhausted_deck_rejects_draws_witness :
    (sampleParse (ascii "d7") = some 7 ∧ sampleRegistry.lookup 7 = some sampleDeck ∧
      sampleDeck.DeckId = 7 ∧ 1 ≤ sampleDeck.Cards.length) ∧
    ((DrawCards sampleParse sampleRegistry (ascii "d7") sampleDeck.Cards.length).1.2 = none ∧
    ∀ ks : List Int,
      (OpenDeck sampleParse
        (run sampleParse
          (DrawCards sampleParse sampleRegistry (ascii "d7") sampleDeck.Cards.length).2
          (ks.map (Call.drawCards (ascii "d7")))) (ascii "d7")).1.2 = none ∧
      (OpenDeck sampleParse
        (run sampleParse
          (DrawCards sampleParse sampleRegistry (ascii "d7") sampleDeck.Cards.length).2
          (ks.map (Call.drawCards (ascii "d7")))) (ascii "d7")).1.1.Cards = [] ∧
      ∀ k : Int,
        (DrawCards sampleParse
          (run sampleParse
            (DrawCards sampleParse sampleRegistry (ascii "d7") sampleDeck.Cards.length).2
            (ks.map (Call.drawCards (ascii "d7")))) (ascii "d7") k).1.2 ≠ none) :=
  ⟨⟨by decide, by decide, rfl, by decide⟩,
    exhausted_deck_rejects_draws sampleParse sampleRegistry (ascii "d7") 7 sampleDeck
      (by decide) (by decide) rfl (by decide)⟩

/-- C19: for a registered deck and `j, k ≥ 1` with `j + k ≤ len(cs)`, a draw
of `j` cards followed by a draw of `k` cards both succeed, the two hands one
after the other are the hand of a single draw of `j + k` cards from the
original registry, and the registry at the end is the same either way.  From
`AS,KD,AC,2C,KH,10H`, a draw of 2 gives `AS, KD`, a draw of 4 then gives
`AC, 2C, KH, 10H` and no card is left. -/
theorem successive_draws (Parse : GoString → Option UUID) (reg : Registry)
    (deckId : GoString) (id : UUID) (deck : Deck) (j k : Nat)
    (hparse : Parse deckId = some id) (hreg : reg.lookup id = some deck)
    (hkey : deck.DeckId = id) (hj : 1 ≤ j) (hk : 1 ≤ k)
    (hjk : j + k ≤ deck.Cards.length) :
    ((DrawCards Parse reg deckId j).1.2 = none ∧
      (DrawCards Parse (DrawCards Parse reg deckId j).2 deckId k).1.2 = none ∧
      (DrawCards Parse reg deckId ((j + k : Nat) : Int)).1.2 = none ∧
      (DrawCards Parse reg deckId j).1.1 ++
          (DrawCards Parse (DrawCards Parse reg deckId j).2 deckId k).1.1
        = (DrawCards Parse reg deckId ((j + k : Nat) : Int)).1.1 ∧
      (DrawCards Parse (DrawCards Parse reg deckId j).2 deckId k).2
        = (DrawCards Parse reg deckId ((j + k : Nat) : Int)).2) ∧
    ((DrawCards sampleParse
        (CreateNewDeck 8 (fun i => i) ∅ false (ascii "AS,KD,AC,2C,KH,10H")).2
        (ascii "d8") 2).1.1.map Card.Code = [ascii "AS", ascii "KD"] ∧
      (DrawCards sampleParse
        (DrawCards sampleParse
          (CreateNewDeck 8 (fun i => i) ∅ false (ascii "AS,KD,AC,2C,KH,10H")).2
          (ascii "d8") 2).2
        (ascii "d8") 4).1.1.map Card.Code
        = [ascii "AC", ascii "2C", ascii "KH", ascii "10H"] ∧
      (OpenDeck sampleParse
        (DrawCards sampleParse
          (DrawCards sampleParse
            (CreateNewDeck 8 (fun i => i) ∅ false (ascii "AS,KD,AC,2C,KH,10H")).2
            (ascii "d8") 2).2
          (ascii "d8") 4).2
        (ascii "d8")).1.1.Cards.length = 0) := by
  refine ⟨?_, by decide⟩
  have hj2 : j ≤ deck.Cards.length := by omega
  have h1 := DrawCards_ok_eq Parse reg deckId id deck j hparse hreg hkey hj hj2
  have hl : (reg.insert id { deck with Cards := deck.Cards.drop j }).lookup id
      = some { deck with Cards := deck.Cards.drop j } := Finmap.lookup_insert reg
  have hk2 : k ≤ ({ deck with Cards := deck.Cards.drop j } : Deck).Cards.length := by
    simp only [List.length_drop]
    omega
  have h2 := DrawCards_ok_eq Parse _ deckId id { deck with Cards := deck.Cards.drop j } k
    hparse hl hkey hk hk2
  have h3 := DrawCards_ok_eq Parse reg deckId id deck (j + k) hparse hreg hkey (by omega) hjk
  rw [h1, h2, h3]
  refine ⟨rfl, rfl, rfl, ?_, ?_⟩
  · simp only [List.take_add]
  · simp only [Finmap.insert_insert, List.drop_drop]

/-- Witness of C19 -/
theorem successive_draws_witness :
    (sampleParse (ascii "d7") = some 7 ∧ sampleRegistry.lookup 7 = some sampleDeck ∧
      sampleDeck.DeckId = 7 ∧ 1 ≤ 1 ∧ 1 ≤ 1 ∧ 1 + 1 ≤ sampleDeck.Cards.length) ∧
    ((DrawCards sampleParse sampleRegistry (ascii "d7") (1 : Nat)).1.2 = none ∧
      (DrawCards sampleParse (DrawCards sampleParse sampleRegistry (ascii "d7") (1 : Nat)).2
        (ascii "d7") (1 : Nat)).1.2 = none ∧
      (DrawCards sampleParse sampleRegistry (ascii "d7") ((1 + 1 : Nat) : Int)).1.2 = none ∧
      (DrawCards sampleParse sampleRegistry (ascii "d7") (1 : Nat)).1.1 ++
          (DrawCards sampleParse
            (DrawCards sampleParse sampleRegistry (ascii "d7") (1 : Nat)).2
            (ascii "d7") (1 : Nat)).1.1
        = (DrawCards sampleParse sampleRegistry (ascii "d7") ((1 + 1 : Nat) : Int)).1.1 ∧
      (DrawCards sampleParse (DrawCards sampleParse sampleRegistry (ascii "d7") (1 : Nat)).2
        (ascii "d7") (1 : Nat)).2
        = (DrawCards sampleParse sampleRegistry (ascii "d7") ((1 + 1 : Nat) : Int)).2) :=
  ⟨⟨by decide, by decide, rfl, by decide, by decide, by decide⟩,
    (successive_draws sampleParse sampleRegistry (ascii "d7") 7 sampleDeck 1 1
      (by decide) (by decide) rfl (by decide) (by decide) (by decide)).1⟩

/-! ## Facts about sequences of calls -/

theorem OpenDeck_frame (Parse : GoString → Option UUID) (reg : Registry)
    (deckId : GoString) : (OpenDeck Parse reg deckId).2 = reg := by
  cases hp : Parse deckId with
  | none => rw [OpenDeck_parse_error Parse reg deckId hp]
  | some id =>
    cases hl : reg.lookup id with
    | none => rw [OpenDeck_not_found Parse reg deckId id hp hl]
    | some deck => rw [OpenDeck_found Parse reg deckId id deck hp hl]

/-- The registry after `DrawCards`: unchanged, or one stored deck without some
of its first cards. -/
theorem DrawCards_registry_cases (Parse : GoString → Option UUID) (reg : Registry)
    (deckId : GoString) (count : Int) (hK : Keyed reg) :
    (DrawCards Parse reg deckId count).2 = reg ∨
    ∃ (id : UUID) (deck : Deck) (n : Nat), reg.lookup id = some deck ∧
      (DrawCards Parse reg deckId count).2 =
        reg.insert id { deck with Cards := deck.Cards.drop n } := by
  by_cases herr : (DrawCards Parse reg deckId count).1.2 = none
  · by_cases hc : count ≤ 0
    · simp [DrawCards, hc] at herr
    · have hpos : 0 < count := not_le.mp hc
      cases hp : Parse deckId with
      | none =>
        rw [DrawCards_of_open_error Parse reg deckId count hpos _ _
          (OpenDeck_parse_error Parse reg deckId hp)]
        exact Or.inl rfl
      | some id =>
        cases hl : reg.lookup id with
        | none =>
          rw [DrawCards_of_open_error Parse reg deckId count hpos _ _
            (OpenDeck_not_found Parse reg deckId id hp hl)]
          exact Or.inl rfl
        | some deck =>
          rw [DrawCards_of_open_ok Parse reg deckId count hpos deck
            (OpenDeck_found Parse reg deckId id deck hp hl)]
          split
          · exact Or.inl rfl
          · split
            · exact Or.inl rfl
            · right
              refine ⟨id, deck, count.toNat, hl, ?_⟩
              rw [hK id deck hl]
  · exact Or.inl (DrawCards_error_frame Parse reg deckId count herr)

theorem step_Keyed (Parse : GoString → Option UUID) (reg : Registry) (call : Call)
    (hK : Keyed reg) : Keyed (step Parse reg call) := by
  cases call with
  | createNewDeck newId rnd shuffle codes => exact CreateNewDeck_Keyed newId rnd reg shuffle codes hK
  | openDeck deckId =>
    simp only [step]
    rw [OpenDeck_frame]
    exact hK
  | drawCards deckId count => exact DrawCards_Keyed Parse reg deckId count hK

theorem run_Keyed (Parse : GoString → Option UUID) (calls : List Call) :
    ∀ reg : Registry, Keyed reg → Keyed (run Parse reg calls) := by
  induction calls with
  | nil => intro reg hK; exact hK
  | cons call rest ih =>
    intro reg hK
    exact ih _ (step_Keyed Parse reg call hK)

/-- One call keeps every registered deck registered, with the same id and
flag, and with cards that are a final segment of the former cards. -/
theorem step_entry (Parse : GoString → Option UUID) (reg : Registry) (call : Call)
    (hK : Keyed reg) (hF : Fresh Parse reg [call] = true) (id : UUID) (deck : Deck)
    (h : reg.lookup id = some deck) :
    ∃ deck1 : Deck, (step Parse reg call).lookup id = some deck1 ∧
      deck1.DeckId = deck.DeckId ∧ deck1.Shuffled = deck.Shuffled ∧
      deck1.Cards <:+ deck.Cards := by
  cases call with
  | createNewDeck newId rnd shuffle codes =>
    simp only [step]
    rcases CreateNewDeck_result newId rnd reg shuffle codes with ⟨_, hreg⟩ | ⟨d, _, hres⟩
    · rw [hreg]
      exact ⟨deck, h, rfl, rfl, List.suffix_refl _⟩
    · have hnone : reg.lookup newId = none := by
        simp only [Fresh, hres, Option.isSome_none, Bool.false_or, Bool.and_true,
          Option.isNone_iff_eq_none] at hF
        exact hF
      have hne : id ≠ newId := by
        intro heq
        rw [heq, hnone] at h
        exact absurd h (by simp)
      rw [hres]
      simp only
      rw [Finmap.lookup_insert_of_ne reg hne]
      exact ⟨deck, h, rfl, rfl, List.suffix_refl _⟩
  | openDeck deckId =>
    simp only [step]
    rw [OpenDeck_frame]
    exact ⟨deck, h, rfl, rfl, List.suffix_refl _⟩
  | drawCards deckId count =>
    simp only [step]
    rcases DrawCards_registry_cases Parse reg deckId count hK with hreg | ⟨id1, d1, n, hl, hres⟩
    · rw [hreg]
      exact ⟨deck, h, rfl, rfl, List.suffix_refl _⟩
    · rw [hres]
      by_cases hid : id = id1
      · subst hid
        have hd : d1 = deck := Option.some.inj (hl.symm.trans h)
        subst hd
        exact ⟨_, Finmap.lookup_insert reg, rfl, rfl, List.drop_suffix _ _⟩
      · rw [Finmap.lookup_insert_of_ne reg hid]
        exact ⟨deck, h, rfl, rfl, List.suffix_refl _⟩

theorem Fresh_cons (Parse : GoString → Option UUID) (reg : Registry) (call : Call)
    (rest : List Call) :
    Fresh Parse reg (call :: rest) =
      (Fresh Parse reg [call] && Fresh Parse (step Parse reg call) rest) := by
  simp [Fresh]

theorem Fresh_append (Parse : GoString → Option UUID) (calls1 calls2 : List Call) :
    ∀ reg : Registry, Fresh Parse reg (calls1 ++ calls2) =
      (Fresh Parse reg calls1 && Fresh Parse (run Parse reg calls1) calls2) := by
  induction calls1 with
  | nil => intro reg; simp [Fresh, run]
  | cons call rest ih =>
    intro reg
    rw [List.cons_append, Fresh_cons, ih, Fresh_cons Parse reg call rest, Bool.and_assoc]
    rfl

theorem Fresh_of_queries (Parse : GoString → Option UUID) (calls : List Call)
    (hq : calls.all Call.isQuery = true) : ∀ reg : Registry, Fresh Parse reg calls = true := by
  induction calls with
  | nil => intro reg; rfl
  | cons call rest ih =>
    intro reg
    rw [List.all_cons, Bool.and_eq_true] at hq
    rw [Fresh_cons, ih hq.2]
    cases call with
    | createNewDeck newId rnd shuffle codes => simp [Call.isQuery] at hq
    | openDeck deckId => simp [Fresh]
    | drawCards deckId count => simp [Fresh]

/-- A sequence of calls keeps every registered deck registered, with the same
id and flag, and with cards that are a final segment of the former cards. -/
theorem run_entry (Parse : GoString → Option UUID) (calls : List Call) :
    ∀ reg : Registry, Keyed reg → Fresh Parse reg calls = true →
      ∀ (id : UUID) (deck : Deck), reg.lookup id = some deck →
        ∃ deck1 : Deck, (run Parse reg calls).lookup id = some deck1 ∧
          deck1.DeckId = deck.DeckId ∧ deck1.Shuffled = deck.Shuffled ∧
          deck1.Cards <:+ deck.Cards := by
  induction calls with
  | nil =>
    intro reg _ _ id deck h
    exact ⟨deck, h, rfl, rfl, List.suffix_refl _⟩
  | cons call rest ih =>
    intro reg hK hF id deck h
    rw [Fresh_cons, Bool.and_eq_true] at hF
    obtain ⟨d1, hl1, hid1, hs1, hc1⟩ := step_entry Parse reg call hK hF.1 id deck h
    obtain ⟨d2, hl2, hid2, hs2, hc2⟩ :=
      ih (step Parse reg call) (step_Keyed Parse reg call hK) hF.2 id d1 hl1
    exact ⟨d2, hl2, hid2.trans hid1, hs2.trans hs1, hc2.trans hc1⟩

/-- C17: in every sequence of calls, started from the empty registry, in which
each `CreateNewDeck` that stores a deck is given an id that is not yet in the
registry, a deck found in the registry at some point is still registered under
the same id at every later point, with no more cards than before, and its
cards are then a final segment of the cards it had. -/
theorem registered_deck_only_shrinks (Parse : GoString → Option UUID)
    (calls1 calls2 : List Call) (id : UUID) (deck : Deck)
    (hfresh : Fresh Parse ∅ (calls1 ++ calls2) = true)
    (h : (run Parse ∅ calls1).lookup id = some deck) :
    ∃ deck1 : Deck, (run Parse ∅ (calls1 ++ calls2)).lookup id = some deck1 ∧
      deck1.Cards.length ≤ deck.Cards.length ∧ deck1.Cards <:+ deck.Cards := by
  rw [Fresh_append, Bool.and_eq_true] at hfresh
  have hK : Keyed (run Parse ∅ calls1) := run_Keyed Parse calls1 ∅ Keyed_empty
  obtain ⟨d1, hl, _, _, hc⟩ := run_entry Parse calls2 _ hK hfresh.2 id deck h
  refine ⟨d1, ?_, hc.length_le, hc⟩
  rw [← hl]
  simp [run, List.foldl_append]

/-- Witness of C17 -/
theorem registered_deck_only_shrinks_witness :
    (Fresh sampleParse ∅ (sampleCalls1 ++ sampleCalls2) = true ∧
      (run sampleParse ∅ sampleCalls1).lookup 7 = some sampleDeck) ∧
    ∃ deck1 : Deck,
      (run sampleParse ∅ (sampleCalls1 ++ sampleCalls2)).lookup 7 = some deck1 ∧
      deck1.Cards.length ≤ sampleDeck.Cards.length ∧ deck1.Cards <:+ sampleDeck.Cards :=
  ⟨⟨by decide, by decide⟩,
    registered_deck_only_shrinks sampleParse sampleCalls1 sampleCalls2 7 sampleDeck
      (by decide) (by decide)⟩

/-- C18: the deck returned and stored by a successful `CreateNewDeck(shuffle,
codes)` has `Shuffled = shuffle`, and after any sequence of `OpenDeck` and
`DrawCards` calls, successful or not, the deck stored under that id and the
deck returned by `OpenDeck` still have `Shuffled = shuffle`. -/
theorem shuffled_flag_fixed (Parse : GoString → Option UUID) (newId : UUID)
    (rnd : Nat → Nat) (reg : Registry) (shuffle : Bool) (codes idStr : GoString)
    (calls : List Call) (hK : Keyed reg)
    (hok : (CreateNewDeck newId rnd reg shuffle codes).1.2 = none)
    (hparse : Parse idStr = some newId) (hq : calls.all Call.isQuery = true) :
    (CreateNewDeck newId rnd reg shuffle codes).1.1.Shuffled = shuffle ∧
    (∃ d : Deck, (CreateNewDeck newId rnd reg shuffle codes).2.lookup newId = some d ∧
      d.Shuffled = shuffle) ∧
    (∃ d : Deck,
      (run Parse (CreateNewDeck newId rnd reg shuffle codes).2 calls).lookup newId = some d ∧
      d.Shuffled = shuffle) ∧
    (OpenDeck Parse (run Parse (CreateNewDeck newId rnd reg shuffle codes).2 calls)
      idStr).1.2 = none ∧
    (OpenDeck Parse (run Parse (CreateNewDeck newId rnd reg shuffle codes).2 calls)
      idStr).1.1.Shuffled = shuffle := by
  have hK1 : Keyed (CreateNewDeck newId rnd reg shuffle codes).2 :=
    CreateNewDeck_Keyed newId rnd reg shuffle codes hK
  rcases CreateNewDeck_result newId rnd reg shuffle codes with ⟨herr, _⟩ | ⟨d, _, hres⟩
  · exact absurd hok herr
  · rw [hres] at hK1 ⊢
    simp only at hK1 ⊢
    obtain ⟨d1, hl, _, hs, _⟩ := run_entry Parse calls _ hK1
      (Fresh_of_queries Parse calls hq _) newId _ (Finmap.lookup_insert reg)
    refine ⟨trivial, ⟨_, Finmap.lookup_insert reg, rfl⟩, ⟨d1, hl, hs⟩, ?_⟩
    rw [OpenDeck_found Parse _ idStr newId d1 hparse hl]
    exact ⟨rfl, hs⟩

/-- Witness of C18 -/
theorem shuffled_flag_fixed_witness :
    (Keyed sampleRegistry ∧
      (CreateNewDeck 8 (fun i => i + 1) sampleRegistry true (ascii "10C,4H")).1.2 = none ∧
      sampleParse (ascii "d8") = some 8 ∧
      [Call.drawCards (ascii "d8") 1, Call.openDeck (ascii "d8"),
        Call.drawCards (ascii "d8") 3].all Call.isQuery = true) ∧
    (OpenDeck sampleParse
      (run sampleParse
        (CreateNewDeck 8 (fun i => i + 1) sampleRegistry true (ascii "10C,4H")).2
        [Call.drawCards (ascii "d8") 1, Call.openDeck (ascii "d8"),
          Call.drawCards (ascii "d8") 3])
      (ascii "d8")).1.1.Shuffled = true :=
  ⟨⟨Keyed_insert ∅ sampleDeck Keyed_empty, by decide, by decide, by decide⟩,
    (shuffled_flag_fixed sampleParse 8 (fun i => i + 1) sampleRegistry true (ascii "10C,4H")
      (ascii "d8")
      [Call.drawCards (ascii "d8") 1, Call.openDeck (ascii "d8"),
        Call.drawCards (ascii "d8") 3]
      (Keyed_insert ∅ sampleDeck Keyed_empty) (by decide) (by decide) (by decide)).2.2.2.2⟩

/-! ## The order of the checks of `validateCardCode` -/

theorem mapLookup_isNone_iff (m : List (GoString × GoString)) (k : GoString) :
    (mapLookup m k).isNone = true ↔ k ∉ m.map Prod.fst := by
  rw [← mapLookup_isSome_iff]
  cases mapLookup m k <;> simp

/-- The four outcomes of the checks on a trimmed code. -/
theorem validateTrimmed_cases (c : GoString) :
    (c.length < 2 ∧ validateTrimmed c = some (ascii "code " ++ c ++ ascii " is invalid")) ∨
    (2 ≤ c.length ∧ c.drop (c.length - 1) ∉ suitNames.map Prod.fst ∧
      validateTrimmed c =
        some (ascii "code " ++ c ++ ascii " is invalid, should have proper suit name")) ∨
    (2 ≤ c.length ∧ c.drop (c.length - 1) ∈ suitNames.map Prod.fst ∧
      c.take (c.length - 1) ∉ valueNames.map Prod.fst ∧
      validateTrimmed c =
        some (ascii "code " ++ c ++ ascii " is invalid, should have proper card value")) ∨
    (2 ≤ c.length ∧ c.drop (c.length - 1) ∈ suitNames.map Prod.fst ∧
      c.take (c.length - 1) ∈ valueNames.map Prod.fst ∧ validateTrimmed c = none) := by
  unfold validateTrimmed
  by_cases h1 : c.length < 2
  · left
    exact ⟨h1, by rw [if_pos h1]⟩
  · right
    have h2 : 2 ≤ c.length := not_lt.mp h1
    rw [if_neg h1]
    by_cases hs : (mapLookup suitNames (c.drop (c.length - 1))).isNone = true
    · left
      exact ⟨h2, (mapLookup_isNone_iff _ _).mp hs, by simp only [hs, if_true]⟩
    · right
      have hs' : c.drop (c.length - 1) ∈ suitNames.map Prod.fst := by
        by_contra hcon
        exact hs ((mapLookup_isNone_iff _ _).mpr hcon)
      by_cases hv : (mapLookup valueNames (c.take (c.length - 1))).isNone = true
      · left
        exact ⟨h2, hs', (mapLookup_isNone_iff _ _).mp hv, by simp [hs, hv]⟩
      · right
        have hv' : c.take (c.length - 1) ∈ valueNames.map Prod.fst := by
          by_contra hcon
          exact hv ((mapLookup_isNone_iff _ _).mpr hcon)
        exact ⟨h2, hs', hv', by simp [hs, hv]⟩

/-- C20 (amended, lengths in bytes): the failures of `validateCardCode` come
in a fixed order.  A trimmed code of fewer than 2 bytes gets the plain
`is invalid` error; a trimmed code
of at least 2 bytes whose last byte is not one of `S, D, C, H` gets the
`should have proper suit name` error, whatever the rest is (as `D1`, `As`);
the `should have proper card value` error is returned exactly when the last
byte is a suit initial and the rest is not a rank token (as `11D`, `aS`,
`1S`).  Lengths are those of Go's `len`: the two-byte string `C3 A9` (one
accented letter in UTF-8) passes the length check and gets the suit error. -/
theorem validateCardCode_precedence :
    (∀ code : GoString, (TrimSpace code).length < 2 →
      validateCardCode code = some (ascii "code " ++ TrimSpace code ++ ascii " is invalid")) ∧
    (∀ code : GoString, 2 ≤ (TrimSpace code).length →
      (TrimSpace code).drop ((TrimSpace code).length - 1)
        ∉ [ascii "S", ascii "D", ascii "C", ascii "H"] →
      validateCardCode code =
        some (ascii "code " ++ TrimSpace code ++
          ascii " is invalid, should have proper suit name")) ∧
    (∀ code : GoString,
      validateCardCode code =
        some (ascii "code " ++ TrimSpace code ++
          ascii " is invalid, should have proper card value") ↔
      (2 ≤ (TrimSpace code).length ∧
        (TrimSpace code).drop ((TrimSpace code).length - 1)
          ∈ [ascii "S", ascii "D", ascii "C", ascii "H"] ∧
        (TrimSpace code).take ((TrimSpace code).length - 1)
          ∉ [ascii "A", ascii "2", ascii "3", ascii "4", ascii "5", ascii "6", ascii "7",
             ascii "8", ascii "9", ascii "10", ascii "J", ascii "Q", ascii "K"])) ∧
    validateCardCode (ascii "D1") =
      some (ascii "code D1 is invalid, should have proper suit name") ∧
    validateCardCode (ascii "As") =
      some (ascii "code As is invalid, should have proper suit name") ∧
    validateCardCode (ascii "11D") =
      some (ascii "code 11D is invalid, should have proper card value") ∧
    validateCardCode (ascii "aS") =
      some (ascii "code aS is invalid, should have proper card value") ∧
    validateCardCode (ascii "1S") =
      some (ascii "code 1S is invalid, should have proper card value") ∧
    validateCardCode (ascii " S ") = some (ascii "code S is invalid") ∧
    validateCardCode [0xC3, 0xA9] =
      some (ascii "code " ++ [0xC3, 0xA9] ++
        ascii " is invalid, should have proper suit name") := by
  have hkeys : valueNames.map Prod.fst =
      [ascii "A", ascii "2", ascii "3", ascii "4", ascii "5", ascii "6", ascii "7",
       ascii "8", ascii "9", ascii "10", ascii "J", ascii "Q", ascii "K"] := by decide
  have hsuits : suitNames.map Prod.fst = [ascii "S", ascii "D", ascii "C", ascii "H"] := by
    decide
  have hm13 : ascii " is invalid" ≠ ascii " is invalid, should have proper card value" := by
    decide
  have hm23 : ascii " is invalid, should have proper suit name"
      ≠ ascii " is invalid, should have proper card value" := by decide
  refine ⟨?_, ?_, ?_, by decide, by decide, by decide, by decide, by decide, by decide,
    by decide⟩
  · intro code hlen
    unfold validateCardCode
    rcases validateTrimmed_cases (TrimSpace code) with h | h | h | h
    · exact h.2
    · exact absurd hlen (not_lt.mpr h.1)
    · exact absurd hlen (not_lt.mpr h.1)
    · exact absurd hlen (not_lt.mpr h.1)
  · intro code hlen hsuit
    rw [← hsuits] at hsuit
    unfold validateCardCode
    rcases validateTrimmed_cases (TrimSpace code) with h | h | h | h
    · exact absurd h.1 (not_lt.mpr hlen)
    · exact h.2.2
    · exact absurd h.2.1 hsuit
    · exact absurd h.2.1 hsuit
  · intro code
    rw [← hkeys, ← hsuits]
    unfold validateCardCode
    rcases validateTrimmed_cases (TrimSpace code) with h | h | h | h
    · rw [h.2]
      constructor
      · intro heq
        exact absurd (List.append_cancel_left (Option.some.inj heq)) hm13
      · intro hcond
        exact absurd h.1 (not_lt.mpr hcond.1)
    · rw [h.2.2]
      constructor
      · intro heq
        exact absurd (List.append_cancel_left (Option.some.inj heq)) hm23
      · intro hcond
        exact absurd hcond.2.1 h.2.1
    · rw [h.2.2.2]
      exact ⟨fun _ => ⟨h.1, h.2.1, h.2.2.1⟩, fun _ => rfl⟩
    · rw [h.2.2.2]
      constructor
      · intro heq
        exact absurd heq (by simp)
      · intro hcond
        exact absurd h.2.2.1 hcond.2.2

/-- C20 (counterexample): the code made of the single letter U+00E9, whose
UTF-8 encoding is the two bytes `C3 A9`, is one character long and unchanged
by trimming; `validateCardCode` does not answer with the plain `is invalid`
error but with the `should have proper suit name` error, because `len` counts
its two bytes. -/
theorem validateCardCode_one_character_code :
    String.utf8EncodeChar (Char.ofNat 0xE9) = [0xC3, 0xA9] ∧
    ([Char.ofNat 0xE9] : List Char).length < 2 ∧
    TrimSpace [0xC3, 0xA9] = [0xC3, 0xA9] ∧
    validateCardCode [0xC3, 0xA9] =
      some (ascii "code " ++ [0xC3, 0xA9] ++
        ascii " is invalid, should have proper suit name") ∧
    validateCardCode [0xC3, 0xA9] ≠
      some (ascii "code " ++ [0xC3, 0xA9] ++ ascii " is invalid") := by
  decide

/-! ## Facts about the HTTP handlers -/

theorem parseDigits_fold_none (s : GoString) :
    s.foldl
      (fun acc b =>
        match acc with
        | none => none
        | some n =>
          if 48 ≤ b.toNat ∧ b.toNat ≤ 57 then some (10 * n + (b.toNat - 48)) else none)
      (none : Option Nat) = none := by
  induction s with
  | nil => rfl
  | cons b rest ih => simpa using ih

/-- The result of `strconv.ParseInt(s, 10, 32)` fits in 32 bits. -/
theorem ParseInt_range (s : GoString) (n : Int) (h : ParseInt s = some n) :
    -(2 : Int) ^ 31 ≤ n ∧ n < (2 : Int) ^ 31 := by
  unfold ParseInt at h
  split at h
  · exact absurd h (by simp)
  · split at h
    · exact absurd h (by simp)
    · rename_i un _
      split at h
      · split at h
        · exact absurd h (by simp)
        · rename_i hle
          have hn : n = -(un : Int) := (Option.some.inj h).symm
          have hle' : (un : Int) ≤ 2 ^ 31 := by exact_mod_cast not_lt.mp hle
          constructor <;> omega
      · split at h
        · exact absurd h (by simp)
        · rename_i hlt
          have hn : n = (un : Int) := (Option.some.inj h).symm
          have hlt' : (un : Int) < 2 ^ 31 := by exact_mod_cast not_le.mp hlt
          have hnn : (0 : Int) ≤ (un : Int) := Int.ofNat_nonneg un
          constructor <;> omega

/-- The draw handler before the call of `deck.DrawCards`. -/
theorem drawCards_validation (Parse : GoString → Option UUID) (reg : Registry)
    (deckIdParam countParam : Option GoString) :
    (deckIdParam.getD [] = [] →
      Api.drawCards Parse reg deckIdParam countParam =
        (.error 400 { Message := ascii "'deck_id' query param not provided", ErrorCode := 3 },
          reg)) ∧
    (deckIdParam.getD [] ≠ [] → countParam.getD [] = [] →
      Api.drawCards Parse reg deckIdParam countParam =
        (.error 400 { Message := ascii "'count' query param not provided", ErrorCode := 5 },
          reg)) ∧
    (deckIdParam.getD [] ≠ [] → countParam.getD [] ≠ [] →
      ParseInt (countParam.getD []) = none →
      Api.drawCards Parse reg deckIdParam countParam =
        (.error 400
          { Message := ascii "count '" ++ countParam.getD [] ++ ascii "' is not an integer",
            ErrorCode := 6 }, reg)) ∧
    (deckIdParam.getD [] ≠ [] → countParam.getD [] ≠ [] →
      ∀ n : Int, ParseInt (countParam.getD []) = some n → n ≤ 0 →
      Api.drawCards Parse reg deckIdParam countParam =
        (.error 400 { Message := ascii "count must be greater than zero", ErrorCode := 6 },
          reg)) ∧
    (deckIdParam.getD [] ≠ [] → countParam.getD [] ≠ [] →
      ∀ n : Int, ParseInt (countParam.getD []) = some n → 0 < n →
      (∀ err : GoString, (DrawCards Parse reg (deckIdParam.getD []) n).1.2 = some err →
        Api.drawCards Parse reg deckIdParam countParam =
          (.error 400
            { Message := ascii "Error in drawing a hand from deck: " ++ err,
              ErrorCode := 7 }, (DrawCards Parse reg (deckIdParam.getD []) n).2)) ∧
      ((DrawCards Parse reg (deckIdParam.getD []) n).1.2 = none →
        Api.drawCards Parse reg deckIdParam countParam =
          (.drawHand 200 (DrawCards Parse reg (deckIdParam.getD []) n).1.1,
            (DrawCards Parse reg (deckIdParam.getD []) n).2))) := by
  refine ⟨?_, ?_, ?_, ?_, ?_⟩
  · intro h
    simp [Api.drawCards, h, Api.StatusBadRequest]
  · intro h1 h2
    simp [Api.drawCards, h1, h2, Api.StatusBadRequest]
  · intro h1 h2 h3
    simp [Api.drawCards, h1, h2, h3, Api.StatusBadRequest]
  · intro h1 h2 n h3 h4
    simp [Api.drawCards, h1, h2, h3, h4, Api.StatusBadRequest]
  · intro h1 h2 n h3 h4
    have h4' : ¬ n ≤ 0 := not_le.mpr h4
    simp only [Api.drawCards, List.length_eq_zero, h1, h2, h3, h4', if_false,
      Api.StatusBadRequest, Api.StatusOK]
    generalize DrawCards Parse reg (deckIdParam.getD []) n = r
    obtain ⟨⟨hand, e⟩, reg1⟩ := r
    cases e with
    | none => simp
    | some e0 => simp


/-- The causes for which `DrawCards` fails on a positive count. -/
theorem DrawCards_failure_causes (Parse : GoString → Option UUID) (reg : Registry)
    (deckId : GoString) (n : Int) (hn : 0 < n) :
    (Parse deckId = none → (DrawCards Parse reg deckId n).1.2 ≠ none) ∧
    (∀ id, Parse deckId = some id → reg.lookup id = none →
      (DrawCards Parse reg deckId n).1.2 ≠ none) ∧
    (∀ id deck, Parse deckId = some id → reg.lookup id = some deck → deck.Cards = [] →
      (DrawCards Parse reg deckId n).1.2 ≠ none) ∧
    (∀ id deck, Parse deckId = some id → reg.lookup id = some deck →
      (deck.Cards.length : Int) < n → (DrawCards Parse reg deckId n).1.2 ≠ none) := by
  refine ⟨?_, ?_, ?_, ?_⟩
  · intro hp
    rw [DrawCards_of_open_error Parse reg deckId n hn _ _
      (OpenDeck_parse_error Parse reg deckId hp)]
    simp
  · intro id hp hl
    rw [DrawCards_of_open_error Parse reg deckId n hn _ _
      (OpenDeck_not_found Parse reg deckId id hp hl)]
    simp
  · intro id deck hp hl hempty
    exact (DrawCards_empty_deck Parse reg deckId id deck n hp hl hempty).1
  · intro id deck hp hl hlt
    rw [DrawCards_of_open_ok Parse reg deckId n hn deck
      (OpenDeck_found Parse reg deckId id deck hp hl)]
    have hgt : n > (deck.Cards.length : Int) := hlt
    by_cases h0 : deck.Cards.length = 0
    · rw [if_pos h0]
      simp
    · rw [if_neg h0, if_pos hgt]
      simp

/-- C21: the draw handler answers, in this order: error code 3 when `deck_id`
is empty, whatever `count` is; else 5 when `count` is empty; else 6 when
`count` is not accepted by `strconv.ParseInt(count, 10, 32)` (not a decimal
integer from `-2^31` to `2^31 - 1`) or is `≤ 0`; else 7 exactly when
`deck.DrawCards` fails, which it does for a malformed id, an unknown id, an
empty deck and a count above the number of cards; all of these with status
400; and status 200 with the drawn hand in the remaining case. -/
theorem drawCards_error_codes (Parse : GoString → Option UUID) (reg : Registry)
    (deckIdParam countParam : Option GoString) :
    (deckIdParam.getD [] = [] →
      ∃ msg, Api.drawCards Parse reg deckIdParam countParam =
        (.error 400 { Message := msg, ErrorCode := 3 }, reg)) ∧
    (deckIdParam.getD [] ≠ [] → countParam.getD [] = [] →
      ∃ msg, Api.drawCards Parse reg deckIdParam countParam =
        (.error 400 { Message := msg, ErrorCode := 5 }, reg)) ∧
    (deckIdParam.getD [] ≠ [] → countParam.getD [] ≠ [] →
      (ParseInt (countParam.getD []) = none ∨
        ∃ n : Int, ParseInt (countParam.getD []) = some n ∧ n ≤ 0) →
      ∃ msg, Api.drawCards Parse reg deckIdParam countParam =
        (.error 400 { Message := msg, ErrorCode := 6 }, reg)) ∧
    (deckIdParam.getD [] ≠ [] → countParam.getD [] ≠ [] →
      ∀ n : Int, ParseInt (countParam.getD []) = some n → 0 < n →
      ((DrawCards Parse reg (deckIdParam.getD []) n).1.2 ≠ none ↔
        ∃ msg, Api.drawCards Parse reg deckIdParam countParam =
          (.error 400 { Message := msg, ErrorCode := 7 }, reg)) ∧
      ((DrawCards Parse reg (deckIdParam.getD []) n).1.2 = none →
        Api.drawCards Parse reg deckIdParam countParam =
          (.drawHand 200 (DrawCards Parse reg (deckIdParam.getD []) n).1.1,
            (DrawCards Parse reg (deckIdParam.getD []) n).2)) ∧
      (Parse (deckIdParam.getD []) = none →
        (DrawCards Parse reg (deckIdParam.getD []) n).1.2 ≠ none) ∧
      (∀ id, Parse (deckIdParam.getD []) = some id → reg.lookup id = none →
        (DrawCards Parse reg (deckIdParam.getD []) n).1.2 ≠ none) ∧
      (∀ id deck, Parse (deckIdParam.getD []) = some id → reg.lookup id = some deck →
        deck.Cards = [] → (DrawCards Parse reg (deckIdParam.getD []) n).1.2 ≠ none) ∧
      (∀ id deck, Parse (deckIdParam.getD []) = some id → reg.lookup id = some deck →
        (deck.Cards.length : Int) < n →
        (DrawCards Parse reg (deckIdParam.getD []) n).1.2 ≠ none)) ∧
    (∀ (s : GoString) (n : Int), ParseInt s = some n →
      -(2 : Int) ^ 31 ≤ n ∧ n < (2 : Int) ^ 31) ∧
    (ParseInt (ascii "10") = some 10 ∧ ParseInt (ascii "0") = some 0 ∧
      ParseInt (ascii "-3") = some (-3) ∧ ParseInt (ascii "o") = none ∧
      ParseInt (ascii "1.5") = none ∧ ParseInt (ascii "2147483647") = some 2147483647 ∧
      ParseInt (ascii "2147483648") = none) := by
  obtain ⟨h3, h5, h6a, h6b, h7⟩ := drawCards_validation Parse reg deckIdParam countParam
  refine ⟨fun h => ⟨_, h3 h⟩, fun h1 h2 => ⟨_, h5 h1 h2⟩, ?_, ?_, ParseInt_range, by decide⟩
  · intro h1 h2 hbad
    rcases hbad with hnone | ⟨n, hn, hle⟩
    · exact ⟨_, h6a h1 h2 hnone⟩
    · exact ⟨_, h6b h1 h2 n hn hle⟩
  · intro h1 h2 n hn hpos
    obtain ⟨herr, hok⟩ := h7 h1 h2 n hn hpos
    obtain ⟨c1, c2, c3, c4⟩ := DrawCards_failure_causes Parse reg (deckIdParam.getD []) n hpos
    refine ⟨?_, hok, c1, c2, c3, c4⟩
    constructor
    · intro hfail
      cases he : (DrawCards Parse reg (deckIdParam.getD []) n).1.2 with
      | none => exact absurd he hfail
      | some err =>
        refine ⟨ascii "Error in drawing a hand from deck: " ++ err, ?_⟩
        rw [herr err he, DrawCards_error_frame Parse reg _ n hfail]
    · rintro ⟨msg, hmsg⟩ hnone
      rw [hok hnone] at hmsg
      exact absurd (congrArg Prod.fst hmsg) (by simp)

/-- The create handler after `strconv.ParseBool`. -/
theorem newDeck_cases (uuidString : UUID → GoString) (newId : UUID) (rnd : Nat → Nat)
    (reg : Registry) (shuffleParam cardsParam : Option GoString) :
    (ParseBool (shuffleParam.getD (ascii "false")) = none →
      Api.newDeck uuidString newId rnd reg shuffleParam cardsParam =
        (.error 400
          { Message := ascii "Invalid query param value for 'shuffle': " ++
              shuffleParam.getD (ascii "false"),
            ErrorCode := 1 }, reg)) ∧
    (∀ b : Bool, ParseBool (shuffleParam.getD (ascii "false")) = some b →
      (∀ err : GoString,
        (CreateNewDeck newId rnd reg b (cardsParam.getD [])).1.2 = some err →
        Api.newDeck uuidString newId rnd reg shuffleParam cardsParam =
          (.error 400 { Message := ascii "error in deck creation: " ++ err, ErrorCode := 2 },
            (CreateNewDeck newId rnd reg b (cardsParam.getD [])).2)) ∧
      ((CreateNewDeck newId rnd reg b (cardsParam.getD [])).1.2 = none →
        Api.newDeck uuidString newId rnd reg shuffleParam cardsParam =
          (.newDeck 200
            { Id := uuidString (CreateNewDeck newId rnd reg b (cardsParam.getD [])).1.1.DeckId,
              Shuffled := (CreateNewDeck newId rnd reg b (cardsParam.getD [])).1.1.Shuffled,
              Remaining :=
                (CreateNewDeck newId rnd reg b (cardsParam.getD [])).1.1.Cards.length },
            (CreateNewDeck newId rnd reg b (cardsParam.getD [])).2))) := by
  refine ⟨?_, ?_⟩
  · intro h
    simp [Api.newDeck, h, Api.StatusBadRequest]
  · intro b hb
    simp only [Api.newDeck, hb, Api.StatusBadRequest, Api.StatusOK]
    generalize CreateNewDeck newId rnd reg b (cardsParam.getD []) = r
    obtain ⟨⟨deck, e⟩, reg1⟩ := r
    cases e with
    | none => simp
    | some e0 => simp

/-- C22: the create handler reads an absent `shuffle` as `false` and an absent
`cards` as a request for the full deck, with 52 remaining cards; a `shuffle`
value that `strconv.ParseBool` rejects gives status 400 with error code 1 and
leaves the registry as it was, whatever `cards` is; otherwise an invalid card
code gives status 400 with error code 2 and leaves the registry as it was;
otherwise the answer is status 200 with the new id, `shuffled` equal to the
parsed flag and `remaining` equal to the number of cards of the created
deck. -/
theorem newDeck_responses (uuidString : UUID → GoString) (newId : UUID) (rnd : Nat → Nat)
    (reg : Registry) (shuffleParam cardsParam : Option GoString) :
    (Api.newDeck uuidString newId rnd reg none cardsParam =
      Api.newDeck uuidString newId rnd reg (some (ascii "false")) cardsParam ∧
      ParseBool (ascii "false") = some false) ∧
    (∀ b : Bool, ParseBool (shuffleParam.getD (ascii "false")) = some b →
      (Api.newDeck uuidString newId rnd reg shuffleParam none).1 =
        .newDeck 200 { Id := uuidString newId, Shuffled := b, Remaining := 52 }) ∧
    (ParseBool (shuffleParam.getD (ascii "false")) = none →
      ∃ msg, Api.newDeck uuidString newId rnd reg shuffleParam cardsParam =
        (.error 400 { Message := msg, ErrorCode := 1 }, reg)) ∧
    (∀ b : Bool, ParseBool (shuffleParam.getD (ascii "false")) = some b →
      (CreateNewDeck newId rnd reg b (cardsParam.getD [])).1.2 ≠ none →
      ∃ msg, Api.newDeck uuidString newId rnd reg shuffleParam cardsParam =
        (.error 400 { Message := msg, ErrorCode := 2 }, reg)) ∧
    (∀ b : Bool, ParseBool (shuffleParam.getD (ascii "false")) = some b →
      (CreateNewDeck newId rnd reg b (cardsParam.getD [])).1.2 = none →
      Api.newDeck uuidString newId rnd reg shuffleParam cardsParam =
        (.newDeck 200
          { Id := uuidString newId, Shuffled := b,
            Remaining :=
              (CreateNewDeck newId rnd reg b (cardsParam.getD [])).1.1.Cards.length },
          (CreateNewDeck newId rnd reg b (cardsParam.getD [])).2)) ∧
    (ParseBool (ascii "true") = some true ∧ ParseBool (ascii "true1") = none ∧
      ParseBool (ascii "") = none ∧ ParseBool (ascii "yes") = none ∧
      (CreateNewDeck newId rnd reg false (ascii "AS,10")).1.2 ≠ none) := by
  have hsucc : ∀ (b : Bool) (cp : Option GoString),
      ParseBool (shuffleParam.getD (ascii "false")) = some b →
      (CreateNewDeck newId rnd reg b (cp.getD [])).1.2 = none →
      Api.newDeck uuidString newId rnd reg shuffleParam cp =
        (.newDeck 200
          { Id := uuidString newId, Shuffled := b,
            Remaining := (CreateNewDeck newId rnd reg b (cp.getD [])).1.1.Cards.length },
          (CreateNewDeck newId rnd reg b (cp.getD [])).2) := by
    intro b cp hb hok
    rw [((newDeck_cases uuidString newId rnd reg shuffleParam cp).2 b hb).2 hok]
    rcases CreateNewDeck_result newId rnd reg b (cp.getD []) with ⟨herr, _⟩ | ⟨d, _, hres⟩
    · exact absurd hok herr
    · rw [hres]
  refine ⟨⟨rfl, by decide⟩, ?_, ?_, ?_, ?_, ?_⟩
  · intro b hb
    have hfull : CreateNewDeck newId rnd reg b [] =
        (({ DeckId := newId,
            Cards := if b then CardDeck.shuffle rnd newSequentialDeck.Cards
              else newSequentialDeck.Cards,
            Shuffled := b }, none),
         reg.insert newId
          { DeckId := newId,
            Cards := if b then CardDeck.shuffle rnd newSequentialDeck.Cards
              else newSequentialDeck.Cards,
            Shuffled := b }) := by
      cases b <;> simp [CreateNewDeck]
    have hlen : (if b then CardDeck.shuffle rnd newSequentialDeck.Cards
        else newSequentialDeck.Cards).length = 52 := by
      have h52 : newSequentialDeck.Cards.length = 52 := by decide
      cases b
      · simpa using h52
      · simp only [if_true]
        rw [(shuffle_perm rnd _).length_eq, h52]
    have hok : (CreateNewDeck newId rnd reg b ((none : Option GoString).getD [])).1.2 = none := by
      show (CreateNewDeck newId rnd reg b []).1.2 = none
      rw [hfull]
    rw [hsucc b none hb hok]
    show Api.Response.newDeck 200
        { Id := uuidString newId, Shuffled := b,
          Remaining := ((CreateNewDeck newId rnd reg b []).1.1.Cards.length : Int) } = _
    rw [hfull]
    simp only
    rw [hlen]
    rfl
  · intro h
    exact ⟨_, (newDeck_cases uuidString newId rnd reg shuffleParam cardsParam).1 h⟩
  · intro b hb hfail
    cases he : (CreateNewDeck newId rnd reg b (cardsParam.getD [])).1.2 with
    | none => exact absurd he hfail
    | some err =>
      refine ⟨ascii "error in deck creation: " ++ err, ?_⟩
      rw [((newDeck_cases uuidString newId rnd reg shuffleParam cardsParam).2 b hb).1 err he]
      rcases CreateNewDeck_result newId rnd reg b (cardsParam.getD []) with
        ⟨_, hreg⟩ | ⟨d, _, hres⟩
      · rw [hreg]
      · rw [hres] at he
        exact absurd he (by simp)
  · intro b hb hok
    exact hsucc b cardsParam hb hok
  · refine ⟨by decide, by decide, by decide, by decide, ?_⟩
    rw [CreateNewDeck_codes_error newId rnd reg false (ascii "AS,10") (by decide)
      [ascii "AS"] (ascii "10") [] (ascii "code 10 is invalid, should have proper suit name")
      (by decide) (by decide) (by decide)]
    simp

/-! ## What the operations leave untouched -/

/-- A successful `DrawCards` found a deck under the parsed id and stored it
again without its first `count` cards. -/
theorem DrawCards_success_cases (Parse : GoString → Option UUID) (reg : Registry)
    (deckId : GoString) (count : Int)
    (hsucc : (DrawCards Parse reg deckId count).1.2 = none) :
    ∃ (id : UUID) (deck : Deck), Parse deckId = some id ∧ reg.lookup id = some deck ∧
      0 < count ∧ count ≤ (deck.Cards.length : Int) ∧
      DrawCards Parse reg deckId count =
        ((deck.Cards.take count.toNat, none),
          reg.insert deck.DeckId { deck with Cards := deck.Cards.drop count.toNat }) := by
  by_cases hc : count ≤ 0
  · simp [DrawCards, hc] at hsucc
  · have hpos : 0 < count := not_le.mp hc
    cases hp : Parse deckId with
    | none =>
      rw [DrawCards_of_open_error Parse reg deckId count hpos _ _
        (OpenDeck_parse_error Parse reg deckId hp)] at hsucc
      exact absurd hsucc (by simp)
    | some id =>
      cases hl : reg.lookup id with
      | none =>
        rw [DrawCards_of_open_error Parse reg deckId count hpos _ _
          (OpenDeck_not_found Parse reg deckId id hp hl)] at hsucc
        exact absurd hsucc (by simp)
      | some deck =>
        have hopen := DrawCards_of_open_ok Parse reg deckId count hpos deck
          (OpenDeck_found Parse reg deckId id deck hp hl)
        rw [hopen] at hsucc ⊢
        by_cases h0 : deck.Cards.length = 0
        · rw [if_pos h0] at hsucc
          exact absurd hsucc (by simp)
        · rw [if_neg h0] at hsucc ⊢
          by_cases hgt : count > (deck.Cards.length : Int)
          · rw [if_pos hgt] at hsucc
            exact absurd hsucc (by simp)
          · rw [if_neg hgt]
            exact ⟨id, deck, rfl, hl, hpos, not_lt.mp hgt, rfl⟩

theorem keys_insert_of_lookup (reg : Registry) (id : UUID) (deck deck1 : Deck)
    (h : reg.lookup id = some deck) : (reg.insert id deck1).keys = reg.keys := by
  ext x
  rw [Finmap.mem_keys, Finmap.mem_keys, Finmap.mem_insert]
  constructor
  · rintro (hx | hx)
    · rw [hx]
      exact Finmap.mem_iff.mpr ⟨deck, h⟩
    · exact hx
  · intro hx
    exact Or.inr hx

theorem keys_insert_of_absent (reg : Registry) (id : UUID) (deck1 : Deck)
    (h : reg.lookup id = none) :
    (reg.insert id deck1).keys = insert id reg.keys ∧
    (reg.insert id deck1).keys.card = reg.keys.card + 1 := by
  have hkeys : (reg.insert id deck1).keys = insert id reg.keys := by
    ext x
    rw [Finmap.mem_keys, Finmap.mem_insert, Finset.mem_insert, Finmap.mem_keys]
  have hnot : id ∉ reg.keys := by
    rw [Finmap.mem_keys]
    exact Finmap.lookup_eq_none.mp h
  exact ⟨hkeys, by rw [hkeys, Finset.card_insert_of_not_mem hnot]⟩

/-- C23: a successful `DrawCards` replaces the entry of the parsed id by the
same deck with fewer cards and leaves every other entry and the set of keys
as they were; a successful `CreateNewDeck` that is given an id not yet in the
registry stores the returned deck under that id and leaves every other entry
as it was, so the registry has exactly one more deck. -/
theorem operations_touch_own_deck (Parse : GoString → Option UUID) (reg : Registry)
    (deckId : GoString) (count : Int) (newId : UUID) (rnd : Nat → Nat) (reg2 : Registry)
    (shuffle : Bool) (codes : GoString) (hK : Keyed reg)
    (hdraw : (DrawCards Parse reg deckId count).1.2 = none)
    (hcreate : (CreateNewDeck newId rnd reg2 shuffle codes).1.2 = none)
    (hnew : reg2.lookup newId = none) :
    (∃ (id : UUID) (deck deck1 : Deck), Parse deckId = some id ∧
      reg.lookup id = some deck ∧
      (DrawCards Parse reg deckId count).2.lookup id = some deck1 ∧
      deck1.Cards.length < deck.Cards.length ∧
      (∀ other : UUID, other ≠ id →
        (DrawCards Parse reg deckId count).2.lookup other = reg.lookup other) ∧
      (DrawCards Parse reg deckId count).2.keys = reg.keys) ∧
    ((CreateNewDeck newId rnd reg2 shuffle codes).2.lookup newId
        = some (CreateNewDeck newId rnd reg2 shuffle codes).1.1 ∧
      (∀ other : UUID, other ≠ newId →
        (CreateNewDeck newId rnd reg2 shuffle codes).2.lookup other = reg2.lookup other) ∧
      (CreateNewDeck newId rnd reg2 shuffle codes).2.keys = insert newId reg2.keys ∧
      (CreateNewDeck newId rnd reg2 shuffle codes).2.keys.card = reg2.keys.card + 1) := by
  constructor
  · obtain ⟨id, deck, hp, hl, hpos, hle, hres⟩ :=
      DrawCards_success_cases Parse reg deckId count hdraw
    have hkey : deck.DeckId = id := hK id deck hl
    subst hkey
    rw [hres]
    refine ⟨deck.DeckId, deck, { deck with Cards := deck.Cards.drop count.toNat }, hp, hl,
      Finmap.lookup_insert reg, ?_, ?_, keys_insert_of_lookup reg deck.DeckId deck _ hl⟩
    · simp only [List.length_drop]
      omega
    · intro other hne
      exact Finmap.lookup_insert_of_ne reg hne
  · rcases CreateNewDeck_result newId rnd reg2 shuffle codes with ⟨herr, _⟩ | ⟨d, _, hres⟩
    · exact absurd hcreate herr
    · rw [hres]
      refine ⟨Finmap.lookup_insert reg2, ?_, (keys_insert_of_absent reg2 newId _ hnew).1,
        (keys_insert_of_absent reg2 newId _ hnew).2⟩
      intro other hne
      exact Finmap.lookup_insert_of_ne reg2 hne

/-- Witness of C23 -/
theorem operations_touch_own_deck_witness :
    (Keyed sampleRegistry ∧
      (DrawCards sampleParse sampleRegistry (ascii "d7") 1).1.2 = none ∧
      (CreateNewDeck 8 (fun i => i) sampleRegistry false (ascii "10C,4H")).1.2 = none ∧
      sampleRegistry.lookup 8 = none) ∧
    ((DrawCards sampleParse sampleRegistry (ascii "d7") 1).2.keys = sampleRegistry.keys ∧
      (CreateNewDeck 8 (fun i => i) sampleRegistry false (ascii "10C,4H")).2.keys.card
        = sampleRegistry.keys.card + 1) :=
  have h := operations_touch_own_deck sampleParse sampleRegistry (ascii "d7") 1 8
    (fun i => i) sampleRegistry false (ascii "10C,4H")
    (Keyed_insert ∅ sampleDeck Keyed_empty) (by decide) (by decide) (by decide)
  ⟨⟨Keyed_insert ∅ sampleDeck Keyed_empty, by decide, by decide, by decide⟩,
    (by
      obtain ⟨⟨_, _, _, _, _, _, _, _, hk⟩, _, _, _, hc⟩ := h
      exact ⟨hk, hc⟩)⟩

/-- C24: the cards returned next to an error are empty when the count is not
positive, the id string does not parse, the id is unknown or the deck has no
cards; when the count exceeds the `n > 0` remaining cards, the cards returned
next to the error are all `n` remaining cards of the deck. -/
theorem DrawCards_cards_on_error (Parse : GoString → Option UUID) (reg : Registry)
    (deckId : GoString) (count : Int) :
    (count ≤ 0 →
      (DrawCards Parse reg deckId count).1.2 ≠ none ∧
      (DrawCards Parse reg deckId count).1.1 = []) ∧
    (0 < count → Parse deckId = none →
      (DrawCards Parse reg deckId count).1.2 ≠ none ∧
      (DrawCards Parse reg deckId count).1.1 = []) ∧
    (0 < count → ∀ id, Parse deckId = some id → reg.lookup id = none →
      (DrawCards Parse reg deckId count).1.2 ≠ none ∧
      (DrawCards Parse reg deckId count).1.1 = []) ∧
    (0 < count → ∀ id deck, Parse deckId = some id → reg.lookup id = some deck →
      deck.Cards.length = 0 →
      (DrawCards Parse reg deckId count).1.2 ≠ none ∧
      (DrawCards Parse reg deckId count).1.1 = []) ∧
    (∀ id deck, Parse deckId = some id → reg.lookup id = some deck →
      0 < deck.Cards.length → (deck.Cards.length : Int) < count →
      (DrawCards Parse reg deckId count).1.2 ≠ none ∧
      (DrawCards Parse reg deckId count).1.1 = deck.Cards ∧
      (DrawCards Parse reg deckId count).1.1.length = deck.Cards.length ∧
      (DrawCards Parse reg deckId count).1.1 ≠ []) ∧
    ((DrawCards sampleParse sampleRegistry (ascii "d7") 5).1.1 = sampleDeck.Cards ∧
      (DrawCards sampleParse sampleRegistry (ascii "d7") 5).1.2 =
        some (ascii "cannot draw 5 cards, deck has only 2") ∧
      sampleDeck.Cards.length = 2) := by
  refine ⟨?_, ?_, ?_, ?_, ?_, by decide⟩
  · intro hc
    simp [DrawCards, hc]
  · intro hpos hp
    rw [DrawCards_of_open_error Parse reg deckId count hpos _ _
      (OpenDeck_parse_error Parse reg deckId hp)]
    simp
  · intro hpos id hp hl
    rw [DrawCards_of_open_error Parse reg deckId count hpos _ _
      (OpenDeck_not_found Parse reg deckId id hp hl)]
    simp
  · intro hpos id deck hp hl h0
    rw [DrawCards_of_open_ok Parse reg deckId count hpos deck
      (OpenDeck_found Parse reg deckId id deck hp hl), if_pos h0]
    exact ⟨by simp, List.length_eq_zero.mp h0⟩
  · intro id deck hp hl hn hlt
    have hpos : 0 < count := by
      have : (0 : Int) ≤ (deck.Cards.length : Int) := Int.ofNat_nonneg _
      omega
    have h0 : ¬ deck.Cards.length = 0 := by omega
    have hgt : count > (deck.Cards.length : Int) := hlt
    rw [DrawCards_of_open_ok Parse reg deckId count hpos deck
      (OpenDeck_found Parse reg deckId id deck hp hl), if_neg h0, if_pos hgt]
    refine ⟨by simp, rfl, rfl, ?_⟩
    intro hnil
    exact h0 (List.length_eq_zero.mpr hnil)

end CardDeck
